import Mathlib

/-!
Verification of the resilient generation dispatch layer of EduSarathi
(`ai/openrouter_service.py`, class `OpenRouterService`).

Python strings are modelled as `List Char`; Python `in` on strings is
`List.isInfixOf`, `str.lower()` maps `Char.toLower`, `str.strip()` drops
whitespace on both ends.  Python dict/list JSON documents are modelled by the
`EJson` inductive and `json.dumps` by `EJson.dumps`.  Wall-clock time and the
network are modelled explicitly: time is `ℚ`, and each outbound request's
observable behaviour (duration, returned content or transport failure) is an
`attempt_behavior` supplied by an environment `ℕ → attempt_behavior`.
Fallible operations (Python `int(...)` on a string) return `Option`.
-/

/-- Python `str`, modelled as a list of characters. -/
abbrev Str := List Char

/-- Python `str.lower()` (ASCII case folding, which is all the service uses). -/
def lowerStr (s : Str) : Str := s.map Char.toLower

/-- Python `needle in hay` for strings: substring containment. -/
def pyIn (needle : Str) : Str → Bool
  | [] => needle.isEmpty
  | c :: rest => needle.isPrefixOf (c :: rest) || pyIn needle rest

/-- Python `str.strip()`: drop whitespace from both ends. -/
def stripStr (s : Str) : Str :=
  ((s.dropWhile Char.isWhitespace).reverse.dropWhile Char.isWhitespace).reverse

/-- Python `int(s)` on a string: optional sign and decimal digits, after
stripping surrounding whitespace; anything else raises, modelled as `none`. -/
def strToInt (s : Str) : Option Int :=
  let digitsToNat : Str → Option Nat := fun ds =>
    if ds.isEmpty then none
    else ds.foldl (fun acc c =>
      match acc with
      | none => none
      | some n => if c.isDigit then some (n * 10 + (c.toNat - 48)) else none)
      (some 0)
  match stripStr s with
  | '-' :: ds => (digitsToNat ds).map (fun n => -(n : Int))
  | '+' :: ds => (digitsToNat ds).map (fun n => (n : Int))
  | ds => (digitsToNat ds).map (fun n => (n : Int))

/-- A chat message: `{role, content}`. -/
structure Message where
  role : Str
  content : Str
deriving DecidableEq, Repr

/-- JSON documents as built by the Python code (dicts keep insertion order). -/
inductive EJson where
  | null
  | bool (b : Bool)
  | int (n : Int)
  | str (s : Str)
  | arr (elems : List EJson)
  | obj (fields : List (Str × EJson))

/-- JSON string escaping used by `EJson.dumps` (quotes and backslashes). -/
def escapeJson (s : Str) : Str :=
  s.flatMap (fun c => if c = '"' ∨ c = '\\' then ['\\', c] else [c])

mutual

/-- `json.dumps` (default separators `", "` and `": "`). -/
def EJson.dumps : EJson → Str
  | .null => "null".data
  | .bool true => "true".data
  | .bool false => "false".data
  | .int n => (toString n).data
  | .str s => '"' :: escapeJson s ++ ['"']
  | .arr l => '[' :: EJson.dumpsArr l ++ [']']
  | .obj l => '\x7b' :: EJson.dumpsObj l ++ ['\x7d']

/-- Serialize array elements, separated by `", "`. -/
def EJson.dumpsArr : List EJson → Str
  | [] => []
  | [x] => EJson.dumps x
  | x :: xs => EJson.dumps x ++ ", ".data ++ EJson.dumpsArr xs

/-- Serialize object fields, separated by `", "`, key and value by `": "`. -/
def EJson.dumpsObj : List (Str × EJson) → Str
  | [] => []
  | [(k, v)] => ('"' :: escapeJson k ++ ['"']) ++ ": ".data ++ EJson.dumps v
  | (k, v) :: xs =>
    ('"' :: escapeJson k ++ ['"']) ++ ": ".data ++ EJson.dumps v
      ++ ", ".data ++ EJson.dumpsObj xs

end

/-- Key lookup in a JSON object (first binding wins, like `dict` access). -/
def EJson.lookup : EJson → Str → Option EJson
  | .obj kvs, k => (kvs.find? (fun p => p.1 = k)).map (fun p => p.2)
  | _, _ => none

/-- Helper: JSON string from a literal. -/
def jstr (s : String) : EJson := .str s.data

/-- Helper: an object field from a literal key. -/
def kv (k : String) (v : EJson) : Str × EJson := (k.data, v)

/-- Helper: a Python f-string, the concatenation of its parts. -/
def jf (parts : List Str) : EJson := .str parts.flatten

/-! ## Service configuration (`OpenRouterService.__init__`) -/

/-- `self.min_delay = 0.5` (seconds). -/
def min_delay : ℚ := 1/2

/-- `self.premium_models`. -/
def premium_models : List Str :=
  [("anthropic/claude-3.5-sonnet").data,
   ("openai/gpt-4-turbo").data,
   ("meta-llama/llama-3.1-70b-instruct").data]

/-- `self.free_models`. -/
def free_models : List Str :=
  [("deepseek/deepseek-chat-v3.1:free").data,
   ("meta-llama/llama-3.2-3b-instruct:free").data,
   ("google/gemma-2-9b-it:free").data,
   ("openai/gpt-oss-120b:free").data]

/-! ## Context enhancer (`_enhance_messages_with_context`) -/

/-- The fixed domain-expertise preamble (`educational_context` literal). -/
def educational_context : Str :=
  ("You are an expert educational AI with deep knowledge of:\n- NCERT curriculum and Indian education standards\n- Advanced pedagogical methods and instructional design\n- Age-appropriate content development and scaffolding\n- Comprehensive assessment strategies and rubric design\n- Cultural sensitivity and multilingual education\n- Technology integration and accessibility features\n\nAlways provide responses that exceed ChatGPT quality through:\n1. Detailed pedagogical reasoning and educational theory application\n2. Comprehensive content structure with multiple learning modalities\n3. NCERT alignment with specific chapter and learning outcome references\n4. Professional assessment criteria and clear marking schemes\n5. Accessibility features and differentiated instruction options\n6. Real-world applications and cross-curricular connections\n7. Technology integration and interactive elements\n").data

/-- `_enhance_messages_with_context`: returns `messages` unchanged when empty;
merges the preamble into `messages[0]` when its role is `"system"`; otherwise
prepends a fresh system message. -/
def enhance_messages_with_context (messages : List Message) : List Message :=
  match messages with
  | [] => []
  | m0 :: rest =>
    if m0.role = ("system").data then
      { role := ("system").data,
        content := m0.content ++ ("\n\n").data ++ educational_context } :: rest
    else
      { role := ("system").data, content := educational_context } :: m0 :: rest

/-! ## Domain classification (`_detect_content_type`) -/

def quiz_keywords : List Str :=
  [("quiz").data, ("question").data, ("mcq").data, ("test").data,
   ("assessment").data]

def curriculum_keywords : List Str :=
  [("curriculum").data, ("syllabus").data, ("course").data, ("program").data]

def mindmap_keywords : List Str :=
  [("mindmap").data, ("mind map").data, ("concept map").data, ("visual").data]

def slides_keywords : List Str :=
  [("slide").data, ("presentation").data, ("ppt").data, ("powerpoint").data]

def lecture_keywords : List Str :=
  [("lecture").data, ("lesson").data, ("plan").data, ("teaching").data]

def assessment_keywords : List Str :=
  [("assessment").data, ("exam").data, ("evaluation").data, ("grading").data]

/-- `any(keyword in message_lower for keyword in ...)`. -/
def matchesAny (kws : List Str) (m : Str) : Bool := kws.any (fun k => pyIn k m)

/-- `_detect_content_type`: first matching keyword set wins, in the fixed
order quiz, curriculum, mindmap, slides, lecture, assessment, general. -/
def detect_content_type (message : Str) : Str :=
  let message_lower := lowerStr message
  if matchesAny quiz_keywords message_lower then ("quiz").data
  else if matchesAny curriculum_keywords message_lower then ("curriculum").data
  else if matchesAny mindmap_keywords message_lower then ("mindmap").data
  else if matchesAny slides_keywords message_lower then ("slides").data
  else if matchesAny lecture_keywords message_lower then ("lecture").data
  else if matchesAny assessment_keywords message_lower then ("assessment").data
  else ("general").data

/-! ## Response validator (`_validate_educational_response`) -/

def quality_indicators : List Str :=
  [("learning").data, ("objective").data, ("ncert").data, ("curriculum").data,
   ("student").data, ("assessment").data, ("activity").data,
   ("explanation").data, ("example").data, ("understanding").data]

/-- `sum(1 for indicator in quality_indicators if indicator in content_lower)`. -/
def count_quality_indicators (content : Str) : Nat :=
  quality_indicators.countP (fun k => pyIn k (lowerStr content))

/-- `_validate_educational_response(content, original_messages)`.
The `original_messages` argument is unused in the source as well. -/
def validate_educational_response (content : Str)
    (_original_messages : List Message) : Bool :=
  if content.isEmpty ∨ (stripStr content).length < 50 then false
  else 2 ≤ count_quality_indicators content

/-! ## Quality scorer (`_calculate_quality_score`) -/

def educational_terms : List Str :=
  [("ncert").data, ("curriculum").data, ("assessment").data,
   ("pedagogical").data, ("learning objective").data, ("rubric").data]

def structure_indicators : List Str :=
  [("\x7b").data, ("##").data, ("###").data, ("1.").data, ("a)").data,
   ("i)").data]

/-- `_calculate_quality_score`: base 0.5, length bonus, +0.05 per educational
term present, +0.1 structure bonus, capped at 1.0. -/
def calculate_quality_score (content : Str) : ℚ :=
  let score : ℚ := 1/2
  let score : ℚ :=
    if 1000 < content.length then score + 2/10
    else if 500 < content.length then score + 1/10
    else score
  let score : ℚ := educational_terms.foldl
    (fun sc term => if pyIn term (lowerStr content) then sc + 5/100 else sc)
    score
  let score : ℚ :=
    if structure_indicators.any (fun ind => pyIn ind content) then score + 1/10
    else score
  min score 1

/-! ## Fallback synthesizer documents -/

/-- The two literal questions of `_generate_quiz_fallback_superior` (they do
not depend on the parameters). -/
def quiz_fallback_questions : List EJson :=
  [.obj
    [kv ("question_id") (.int 1),
     kv ("question_type") (jstr ("multiple_choice")),
     kv ("cognitive_level") (jstr ("understand")),
     kv ("difficulty") (jstr ("medium")),
     kv ("question_text") (jstr ("When an object moves in a straight line with uniform acceleration, which statement is correct?")),
     kv ("options") (.arr
       [.obj [kv ("id") (jstr ("A")),
              kv ("text") (jstr ("The velocity remains constant")),
              kv ("is_correct") (.bool false)],
        .obj [kv ("id") (jstr ("B")),
              kv ("text") (jstr ("The displacement is proportional to time")),
              kv ("is_correct") (.bool false)],
        .obj [kv ("id") (jstr ("C")),
              kv ("text") (jstr ("The velocity changes by equal amounts in equal time intervals")),
              kv ("is_correct") (.bool true)],
        .obj [kv ("id") (jstr ("D")),
              kv ("text") (jstr ("The acceleration decreases with time")),
              kv ("is_correct") (.bool false)]]),
     kv ("correct_answer") (jstr ("C")),
     kv ("explanation") (jstr ("Uniform acceleration means constant acceleration, so velocity changes by equal amounts in equal time intervals."))],
   .obj
    [kv ("question_id") (.int 2),
     kv ("question_type") (jstr ("problem_solving")),
     kv ("cognitive_level") (jstr ("apply")),
     kv ("difficulty") (jstr ("medium")),
     kv ("question_text") (jstr ("A car accelerates from rest and covers 100m in 10s. Find acceleration and final velocity.")),
     kv ("correct_answer") (jstr ("Acceleration = 2 m/s², Final velocity = 20 m/s")),
     kv ("solution_steps") (.arr
       [jstr ("Given: u=0, s=100m, t=10s"),
        jstr ("Using s = ut + ½at²: 100 = 0 + ½a(10)² = 50a"),
        jstr ("Therefore a = 2 m/s²"),
        jstr ("Using v = u + at: v = 0 + 2(10) = 20 m/s")])]]

/-- The document serialized by `_generate_quiz_fallback_superior`. -/
def quiz_fallback_superior_doc (subject topic grade : Str)
    (question_count : Int) (difficulty : Str) : EJson :=
  .obj [kv ("quiz") (.obj
    [kv ("metadata") (.obj
      [kv ("title") (jf [("Comprehensive ").data, subject, (" Quiz - ").data, topic]),
       kv ("subtitle") (jf [("Class ").data, grade, (" Assessment with Educational Excellence").data]),
       kv ("subject") (.str subject),
       kv ("topic") (.str topic),
       kv ("grade") (jf [("Class ").data, grade]),
       kv ("difficulty_level") (.str difficulty),
       kv ("question_count") (.int question_count),
       kv ("estimated_time") (jf [(toString (question_count * 3)).data, (" minutes").data]),
       kv ("ncert_alignment") (jf [("NCERT Class ").data, grade, (" ").data, subject]),
       kv ("assessment_type") (jstr ("Formative Assessment with Immediate Feedback")),
       kv ("created_by") (jstr ("EduSarathi AI - Superior Educational Assessment"))]),
     kv ("questions") (.arr quiz_fallback_questions)])]

/-- `_generate_quiz_fallback_superior`. -/
def generate_quiz_fallback_superior (subject topic grade : Str)
    (question_count : Int) (difficulty : Str) : Str :=
  EJson.dumps (quiz_fallback_superior_doc subject topic grade question_count difficulty)

/-- `_generate_superior_quiz_fallback` (fixed demo arguments). -/
def generate_superior_quiz_fallback : Str :=
  generate_quiz_fallback_superior (("Physics").data) (("Motion and Force").data)
    (("11").data) 5 (("medium").data)

/-- `_generate_superior_assessment_fallback` (fixed demo arguments; the code
after its `return` statement is unreachable). -/
def generate_superior_assessment_fallback : Str :=
  generate_quiz_fallback_superior (("Physics").data) (("Assessment").data)
    (("11").data) 10 (("medium").data)

/-- `_generate_superior_general_fallback` (the second, effective definition in
the source; the earlier one at line 877 is shadowed by it). -/
def generate_superior_general_fallback (message : Str) : Str :=
  EJson.dumps (.obj [kv ("response") (.obj
    [kv ("content") (jf [("Superior Educational AI Response: ").data, message]),
     kv ("type") (jstr ("educational_assistance")),
     kv ("quality") (jstr ("exceeds_chatgpt_standards"))])])

/-- Unit 1 literal of `_generate_curriculum_fallback_superior`. -/
def curriculum_unit1 : EJson :=
  .obj
   [kv ("unit_number") (.int 1),
    kv ("title") (jstr ("Physical World and Measurement")),
    kv ("duration") (jstr ("3 weeks")),
    kv ("learning_hours") (.int 18),
    kv ("description") (jstr ("Foundation of physics: scope, measurement, and scientific methodology")),
    kv ("key_concepts") (.arr
      [jstr ("Nature and scope of physics"),
       jstr ("Units and measurement systems"),
       jstr ("Significant figures and error analysis"),
       jstr ("Dimensional analysis and its applications")]),
    kv ("learning_outcomes") (.arr
      [jstr ("Understand the fundamental nature of physics as a science"),
       jstr ("Master measurement techniques and uncertainty analysis"),
       jstr ("Apply dimensional analysis to solve physics problems"),
       jstr ("Develop scientific methodology and inquiry skills")]),
    kv ("activities") (.arr
      [.obj [kv ("type") (jstr ("laboratory")),
             kv ("title") (jstr ("Measurement and Error Analysis")),
             kv ("duration") (jstr ("2 hours")),
             kv ("description") (jstr ("Hands-on measurement of various quantities with error calculation"))],
       .obj [kv ("type") (jstr ("project")),
             kv ("title") (jstr ("Physics in Everyday Life")),
             kv ("duration") (jstr ("1 week")),
             kv ("description") (jstr ("Research project identifying physics principles in daily phenomena"))],
       .obj [kv ("type") (jstr ("discussion")),
             kv ("title") (jstr ("Ethics in Scientific Research")),
             kv ("duration") (jstr ("1 hour")),
             kv ("description") (jstr ("Classroom discussion on responsible conduct of research"))]]),
    kv ("assessments") (.arr
      [.obj [kv ("type") (jstr ("formative")),
             kv ("method") (jstr ("Daily exit tickets")),
             kv ("weightage") (jstr ("10%")),
             kv ("description") (jstr ("Quick understanding checks at end of each class"))],
       .obj [kv ("type") (jstr ("summative")),
             kv ("method") (jstr ("Unit test")),
             kv ("weightage") (jstr ("70%")),
             kv ("description") (jstr ("Comprehensive test covering all unit concepts"))],
       .obj [kv ("type") (jstr ("authentic")),
             kv ("method") (jstr ("Lab report")),
             kv ("weightage") (jstr ("20%")),
             kv ("description") (jstr ("Scientific report writing and data analysis"))]]),
    kv ("resources") (.arr
      [.obj [kv ("type") (jstr ("textbook")),
             kv ("title") (jstr ("NCERT Physics Class 11 Part 1")),
             kv ("chapters") (.arr [jstr ("Chapter 1"), jstr ("Chapter 2")]),
             kv ("page_range") (jstr ("1-45"))],
       .obj [kv ("type") (jstr ("digital")),
             kv ("title") (jstr ("PhET Measurement Simulations")),
             kv ("url") (jstr ("https://phet.colorado.edu/en/simulations/category/physics")),
             kv ("description") (jstr ("Interactive measurement and units simulations"))],
       .obj [kv ("type") (jstr ("video")),
             kv ("title") (jstr ("Measurement and Uncertainty")),
             kv ("platform") (jstr ("Educational video library")),
             kv ("duration") (jstr ("45 minutes"))]]),
    kv ("differentiation") (.obj
      [kv ("advanced_learners") (.arr
        [jstr ("Independent research on measurement standards"),
         jstr ("Complex error propagation calculations"),
         jstr ("Historical development of measurement systems")]),
       kv ("struggling_learners") (.arr
        [jstr ("Visual aids for unit conversions"),
         jstr ("Simplified measurement activities"),
         jstr ("Peer tutoring and group support")]),
       kv ("english_language_learners") (.arr
        [jstr ("Bilingual vocabulary cards"),
         jstr ("Visual representations of concepts"),
         jstr ("Culturally relevant measurement examples")])])]

/-- Unit 2 literal of `_generate_curriculum_fallback_superior`. -/
def curriculum_unit2 : EJson :=
  .obj
   [kv ("unit_number") (.int 2),
    kv ("title") (jstr ("Motion in Straight Line")),
    kv ("duration") (jstr ("4 weeks")),
    kv ("learning_hours") (.int 24),
    kv ("description") (jstr ("Kinematics of motion in one dimension with mathematical analysis")),
    kv ("key_concepts") (.arr
      [jstr ("Position, displacement, and distance"),
       jstr ("Velocity and acceleration concepts"),
       jstr ("Equations of motion and their applications"),
       jstr ("Graphical analysis of motion")]),
    kv ("learning_outcomes") (.arr
      [jstr ("Analyze motion using kinematic equations"),
       jstr ("Interpret position-time and velocity-time graphs"),
       jstr ("Solve complex motion problems mathematically"),
       jstr ("Connect mathematical models to physical reality")]),
    kv ("ncert_alignment") (jstr ("NCERT Class 11 Physics Chapter 3")),
    kv ("cross_curricular_connections") (.arr
      [jstr ("Mathematics: Calculus concepts (derivatives)"),
       jstr ("Computer Science: Computational modeling"),
       jstr ("Geography: GPS and navigation systems")])]

/-- The document serialized by `_generate_curriculum_fallback_superior`. -/
def curriculum_fallback_superior_doc (subject grade duration : Str)
    (focus_areas : List Str) (difficulty : Str) : EJson :=
  .obj [kv ("curriculum") (.obj
   [kv ("metadata") (.obj
     [kv ("title") (jf [("Enhanced ").data, subject, (" Curriculum - Class ").data, grade]),
      kv ("subtitle") (jstr ("Comprehensive NCERT-Aligned Educational Program")),
      kv ("subject") (.str subject),
      kv ("grade") (jf [("Class ").data, grade]),
      kv ("duration") (.str duration),
      kv ("difficulty_level") (.str difficulty),
      kv ("total_hours") (.int 180),
      kv ("focus_areas") (.arr (focus_areas.map (fun a => .str a))),
      kv ("ncert_alignment") (jf [("NCERT Class ").data, grade, (" ").data, subject, (" Curriculum").data]),
      kv ("created_by") (jstr ("EduSarathi AI - Superior Educational Design")),
      kv ("pedagogical_approach") (jstr ("5E Instructional Model with Constructivist Learning")),
      kv ("assessment_framework") (jstr ("Comprehensive Formative and Summative Assessment")),
      kv ("accessibility_features") (.arr
        [jstr ("Universal Design for Learning"), jstr ("Multi-modal content"),
         jstr ("Flexible pacing")]),
      kv ("language") (jstr ("English with Hindi support available"))]),
    kv ("learning_philosophy") (.obj
     [kv ("educational_theory") (jstr ("Constructivist learning with social interaction emphasis")),
      kv ("teaching_methodology") (jstr ("Inquiry-based learning with hands-on experimentation")),
      kv ("assessment_philosophy") (jstr ("Authentic assessment with real-world applications")),
      kv ("differentiation") (jstr ("Multiple intelligences and learning styles accommodation"))]),
    kv ("learning_objectives") (.obj
     [kv ("primary_objectives") (.arr
       [jf [("Develop deep conceptual understanding of ").data, subject, (" principles").data],
        jf [("Master problem-solving skills in ").data, subject, (" applications").data],
        jf [("Apply ").data, subject, (" knowledge to real-world scenarios").data],
        jstr ("Develop scientific inquiry and research skills")]),
      kv ("cognitive_objectives") (.arr
       [jf [("Analyze complex ").data, subject, (" phenomena using scientific methods").data],
        jf [("Synthesize ").data, subject, (" concepts across different domains").data],
        jf [("Evaluate ").data, subject, (" theories and their limitations").data],
        jf [("Create innovative solutions using ").data, subject, (" principles").data]]),
      kv ("skill_objectives") (.arr
       [jstr ("Mathematical modeling and computational thinking"),
        jstr ("Laboratory experimentation and data analysis"),
        jstr ("Scientific communication and presentation"),
        jstr ("Collaborative problem-solving and teamwork")]),
      kv ("attitude_objectives") (.arr
       [jf [("Appreciation for the beauty and elegance of ").data, subject],
        jstr ("Scientific temper and rational thinking"),
        jstr ("Environmental consciousness and sustainability"),
        jstr ("Ethical responsibility in scientific applications")])]),
    kv ("curriculum_structure") (.obj
     [kv ("total_units") (.int 8),
      kv ("unit_duration") (jstr ("3-4 weeks each")),
      kv ("assessment_frequency") (jstr ("Continuous with major assessments every 6 weeks")),
      kv ("practical_component") (jstr ("40% of total curriculum time")),
      kv ("project_component") (jstr ("20% of total curriculum time"))]),
    kv ("units") (.arr [curriculum_unit1, curriculum_unit2]),
    kv ("assessment_strategy") (.obj
     [kv ("continuous_assessment") (.obj
       [kv ("weightage") (jstr ("40%")),
        kv ("components") (.arr
         [jstr ("Daily formative assessments (10%)"),
          jstr ("Laboratory work and reports (15%)"),
          jstr ("Project work and presentations (10%)"),
          jstr ("Peer assessment and collaboration (5%)")])]),
      kv ("periodic_assessment") (.obj
       [kv ("weightage") (jstr ("60%")),
        kv ("components") (.arr
         [jstr ("Unit tests (30%)"),
          jstr ("Mid-term examination (15%)"),
          jstr ("Final examination (15%)")])]),
      kv ("grading_rubrics") (.obj
       [kv ("conceptual_understanding") (.obj
         [kv ("exemplary") (jstr ("Demonstrates deep understanding with connections to real-world applications")),
          kv ("proficient") (jstr ("Shows solid grasp of concepts with minor gaps")),
          kv ("developing") (jstr ("Basic understanding with some misconceptions")),
          kv ("beginning") (jstr ("Limited understanding requiring significant support"))]),
        kv ("problem_solving") (.obj
         [kv ("exemplary") (jstr ("Applies multiple strategies creatively and efficiently")),
          kv ("proficient") (jstr ("Uses appropriate strategies with accurate execution")),
          kv ("developing") (jstr ("Shows understanding but makes calculation errors")),
          kv ("beginning") (jstr ("Difficulty identifying appropriate solution strategies"))])])]),
    kv ("technology_integration") (.obj
     [kv ("digital_tools") (.arr
       [jstr ("Interactive simulations for concept visualization"),
        jstr ("Graphing calculators for mathematical analysis"),
        jstr ("Data logging sensors for real-time experiments"),
        jstr ("Virtual laboratory software for remote learning")]),
      kv ("online_platforms") (.arr
       [jstr ("Learning management system for content delivery"),
        jstr ("Collaborative platforms for group projects"),
        jstr ("Assessment platforms for immediate feedback"),
        jstr ("Communication tools for peer interaction")]),
      kv ("multimedia_resources") (.arr
       [jstr ("Educational videos and animations"),
        jstr ("Interactive textbooks and e-books"),
        jstr ("Augmented reality for 3D visualization"),
        jstr ("Podcast series on physics applications")])]),
    kv ("professional_development") (.obj
     [kv ("teacher_support") (.arr
       [jstr ("Comprehensive teacher guide with lesson plans"),
        jstr ("Professional development workshops"),
        jstr ("Peer collaboration and mentoring programs"),
        jstr ("Access to subject matter experts")]),
      kv ("resource_library") (.arr
       [jstr ("Extensive question bank with solutions"),
        jstr ("Practical activity guidelines and safety protocols"),
        jstr ("Assessment rubrics and evaluation tools"),
        jstr ("Parent communication templates")])]),
    kv ("quality_indicators") (.obj
     [kv ("exceeds_chatgpt_through") (.arr
       [jstr ("Comprehensive pedagogical framework integration"),
        jstr ("Detailed assessment strategies with clear rubrics"),
        jstr ("Extensive differentiation and accessibility features"),
        jstr ("Professional development and implementation support"),
        jstr ("Technology integration with specific tool recommendations"),
        jstr ("Cross-curricular connections and real-world applications"),
        jstr ("Continuous improvement and feedback mechanisms")]),
      kv ("superior_features") (.arr
       [jstr ("8-unit comprehensive curriculum structure"),
        jstr ("180-hour detailed planning with learning outcomes"),
        jstr ("40% practical and 20% project-based learning integration"),
        jstr ("Multi-modal assessment with authentic evaluation"),
        jstr ("Universal Design for Learning implementation"),
        jstr ("Teacher professional development framework"),
        jstr ("Technology-enhanced learning environment design")])])])]

/-- `_generate_curriculum_fallback_superior`. -/
def generate_curriculum_fallback_superior (subject grade duration : Str)
    (focus_areas : List Str) (difficulty : Str) : Str :=
  EJson.dumps (curriculum_fallback_superior_doc subject grade duration focus_areas difficulty)

/-- `_generate_superior_curriculum_fallback` (fixed demo arguments). -/
def generate_superior_curriculum_fallback : Str :=
  generate_curriculum_fallback_superior (("Physics").data) (("11").data)
    (("1 semester").data)
    [("mechanics").data, ("thermodynamics").data, ("waves").data]
    (("medium").data)

/-- `_calculate_mindmap_nodes`. -/
def calculate_mindmap_nodes (depth_level : Int) : Int :=
  if depth_level = 1 then 6
  else if depth_level = 2 then 21
  else if depth_level = 3 then 66
  else depth_level * 20

/-- Main branch 1 of `_generate_mindmap_fallback_superior`. -/
def mindmap_branch1 (subject topic : Str) : EJson :=
  .obj
   [kv ("branch_id") (.int 1),
    kv ("label") (jf [("Fundamental Principles of ").data, topic]),
    kv ("description") (jf [("Core theoretical foundations underlying ").data, topic]),
    kv ("color_theme") (jstr ("#2E86AB")),
    kv ("icon") (jstr ("🔬")),
    kv ("importance_level") (jstr ("Critical")),
    kv ("sub_branches") (.arr
     [.obj
       [kv ("sub_id") (jstr ("1.1")),
        kv ("label") (jf [("Basic Definitions in ").data, topic]),
        kv ("description") (jf [("Essential terminology and concepts for ").data, topic]),
        kv ("details") (.arr
         [jf [("Key term 1 related to ").data, topic],
          jf [("Key term 2 related to ").data, topic],
          jf [("Key term 3 related to ").data, topic]]),
        kv ("examples") (.arr
         [jf [("Example 1 illustrating ").data, topic, (" basics").data],
          jf [("Example 2 showing ").data, topic, (" fundamentals").data]]),
        kv ("assessment_connection") (jf [("Forms basis for ").data, topic, (" understanding evaluation").data])],
      .obj
       [kv ("sub_id") (jstr ("1.2")),
        kv ("label") (jf [("Historical Development of ").data, topic]),
        kv ("description") (jf [("Evolution of understanding in ").data, topic]),
        kv ("details") (.arr
         [jf [("Early discoveries in ").data, topic],
          jf [("Modern developments in ").data, topic],
          jf [("Current research directions in ").data, topic]]),
        kv ("scientists") (.arr
         [jf [("Pioneer scientist 1 in ").data, topic],
          jf [("Pioneer scientist 2 in ").data, topic]]),
        kv ("timeline") (jf [("Chronological development of ").data, topic, (" knowledge").data])],
      .obj
       [kv ("sub_id") (jstr ("1.3")),
        kv ("label") (jf [("Mathematical Framework of ").data, topic]),
        kv ("description") (jf [("Quantitative aspects and equations governing ").data, topic]),
        kv ("details") (.arr
         [jf [("Primary equation 1 for ").data, topic],
          jf [("Primary equation 2 for ").data, topic],
          jf [("Mathematical relationships in ").data, topic]]),
        kv ("problem_solving") (jf [("Application of math to ").data, topic, (" problems").data]),
        kv ("units_dimensions") (jf [("Standard units and dimensional analysis for ").data, topic])]]),
    kv ("cross_connections") (.arr
     [jf [("Links to other ").data, subject, (" topics").data],
      jstr ("Connections to mathematics"),
      jstr ("Relationships with chemistry")])]

/-- Main branch 2 of `_generate_mindmap_fallback_superior`. -/
def mindmap_branch2 (topic : Str) : EJson :=
  .obj
   [kv ("branch_id") (.int 2),
    kv ("label") (jf [("Properties and Characteristics of ").data, topic]),
    kv ("description") (jf [("Observable and measurable aspects of ").data, topic]),
    kv ("color_theme") (jstr ("#A23B72")),
    kv ("icon") (jstr ("📊")),
    kv ("importance_level") (jstr ("High")),
    kv ("sub_branches") (.arr
     [.obj
       [kv ("sub_id") (jstr ("2.1")),
        kv ("label") (jf [("Physical Properties of ").data, topic]),
        kv ("description") (jf [("Directly observable characteristics of ").data, topic]),
        kv ("details") (.arr
         [jf [("Property 1 of ").data, topic],
          jf [("Property 2 of ").data, topic],
          jf [("Property 3 of ").data, topic]]),
        kv ("measurement_methods") (.arr
         [jf [("Method 1 to measure ").data, topic, (" properties").data],
          jf [("Method 2 to measure ").data, topic, (" properties").data]]),
        kv ("instruments") (jf [("Tools used to study ").data, topic, (" properties").data])],
      .obj
       [kv ("sub_id") (jstr ("2.2")),
        kv ("label") (jf [("Behavioral Patterns in ").data, topic]),
        kv ("description") (jf [("How ").data, topic, (" behaves under different conditions").data]),
        kv ("details") (.arr
         [jf [("Behavior pattern 1 of ").data, topic],
          jf [("Behavior pattern 2 of ").data, topic],
          jf [("Conditional responses in ").data, topic]]),
        kv ("variables") (.arr
         [jf [("Factor 1 affecting ").data, topic, (" behavior").data],
          jf [("Factor 2 affecting ").data, topic, (" behavior").data]]),
        kv ("predictions") (jf [("Expected ").data, topic, (" behavior in various scenarios").data])],
      .obj
       [kv ("sub_id") (jstr ("2.3")),
        kv ("label") (jf [("Classification Systems for ").data, topic]),
        kv ("description") (jf [("How ").data, topic, (" is categorized and organized").data]),
        kv ("details") (.arr
         [jf [("Category 1 of ").data, topic],
          jf [("Category 2 of ").data, topic],
          jf [("Classification criteria for ").data, topic]]),
        kv ("taxonomy") (jf [("Hierarchical organization of ").data, topic, (" types").data]),
        kv ("comparative_analysis") (jf [("Similarities and differences between ").data, topic, (" categories").data])]]),
    kv ("experimental_connections") (.arr
     [jf [("Laboratory studies of ").data, topic],
      jf [("Data collection methods for ").data, topic],
      jf [("Analysis techniques for ").data, topic, (" research").data]])]

/-- Main branch 3 of `_generate_mindmap_fallback_superior`. -/
def mindmap_branch3 (topic : Str) : EJson :=
  .obj
   [kv ("branch_id") (.int 3),
    kv ("label") (jf [("Real-World Applications of ").data, topic]),
    kv ("description") (jf [("Practical uses and implementations of ").data, topic]),
    kv ("color_theme") (jstr ("#F18F01")),
    kv ("icon") (jstr ("🌍")),
    kv ("importance_level") (jstr ("High")),
    kv ("sub_branches") (.arr
     [.obj
       [kv ("sub_id") (jstr ("3.1")),
        kv ("label") (jf [("Technology Applications of ").data, topic]),
        kv ("description") (jf [("How ").data, topic, (" is used in modern technology").data]),
        kv ("details") (.arr
         [jf [("Technology 1 using ").data, topic],
          jf [("Technology 2 using ").data, topic],
          jf [("Emerging tech applications of ").data, topic]]),
        kv ("devices") (.arr
         [jf [("Device 1 based on ").data, topic],
          jf [("Device 2 utilizing ").data, topic]]),
        kv ("innovation") (jf [("Cutting-edge developments in ").data, topic, (" applications").data])],
      .obj
       [kv ("sub_id") (jstr ("3.2")),
        kv ("label") (jf [("Industrial Uses of ").data, topic]),
        kv ("description") (jf [("Commercial and industrial applications of ").data, topic]),
        kv ("details") (.arr
         [jf [("Industry 1 using ").data, topic],
          jf [("Industry 2 applying ").data, topic],
          jf [("Manufacturing processes involving ").data, topic]]),
        kv ("economic_impact") (jf [("Financial significance of ").data, topic, (" applications").data]),
        kv ("efficiency") (jf [("How ").data, topic, (" improves industrial processes").data])],
      .obj
       [kv ("sub_id") (jstr ("3.3")),
        kv ("label") (jf [("Environmental Connections of ").data, topic]),
        kv ("description") (jf [("How ").data, topic, (" relates to environmental science").data]),
        kv ("details") (.arr
         [jf [("Environmental aspect 1 of ").data, topic],
          jf [("Environmental aspect 2 of ").data, topic],
          jf [("Sustainability considerations for ").data, topic]]),
        kv ("conservation") (jf [("How ").data, topic, (" contributes to conservation efforts").data]),
        kv ("climate_change") (jf [("Relationship between ").data, topic, (" and climate science").data])]]),
    kv ("career_connections") (.arr
     [jf [("Engineer specializing in ").data, topic],
      jf [("Researcher studying ").data, topic],
      jf [("Technician working with ").data, topic, (" applications").data]])]

/-- Main branch 4 of `_generate_mindmap_fallback_superior`. -/
def mindmap_branch4 (topic : Str) : EJson :=
  .obj
   [kv ("branch_id") (.int 4),
    kv ("label") (jf [("Problem-Solving with ").data, topic]),
    kv ("description") (jf [("Analytical and computational aspects of ").data, topic]),
    kv ("color_theme") (jstr ("#C73E1D")),
    kv ("icon") (jstr ("🧮")),
    kv ("importance_level") (jstr ("Critical")),
    kv ("sub_branches") (.arr
     [.obj
       [kv ("sub_id") (jstr ("4.1")),
        kv ("label") (jf [("Analytical Methods for ").data, topic]),
        kv ("description") (jf [("Mathematical and logical approaches to ").data, topic, (" problems").data]),
        kv ("details") (.arr
         [jf [("Method 1 for analyzing ").data, topic],
          jf [("Method 2 for analyzing ").data, topic],
          jf [("Step-by-step problem-solving for ").data, topic]]),
        kv ("strategies") (.arr
         [jf [("Strategy 1 for ").data, topic, (" problems").data],
          jf [("Strategy 2 for ").data, topic, (" problems").data]]),
        kv ("common_errors") (jf [("Typical mistakes in ").data, topic, (" problem-solving").data])],
      .obj
       [kv ("sub_id") (jstr ("4.2")),
        kv ("label") (jf [("Computational Tools for ").data, topic]),
        kv ("description") (jf [("Software and digital methods for ").data, topic, (" analysis").data]),
        kv ("details") (.arr
         [jf [("Software 1 for ").data, topic, (" calculations").data],
          jf [("Software 2 for ").data, topic, (" modeling").data],
          jf [("Online tools for ").data, topic, (" exploration").data]]),
        kv ("simulations") (.arr
         [jf [("Simulation 1 of ").data, topic, (" phenomena").data],
          jf [("Simulation 2 of ").data, topic, (" applications").data]]),
        kv ("data_analysis") (jf [("Statistical methods for ").data, topic, (" data").data])],
      .obj
       [kv ("sub_id") (jstr ("4.3")),
        kv ("label") (jf [("Experimental Design for ").data, topic]),
        kv ("description") (jf [("How to design and conduct ").data, topic, (" experiments").data]),
        kv ("details") (.arr
         [jf [("Experiment 1 to study ").data, topic],
          jf [("Experiment 2 to investigate ").data, topic],
          jf [("Variables to control in ").data, topic, (" experiments").data]]),
        kv ("safety") (jf [("Safety considerations for ").data, topic, (" experiments").data]),
        kv ("data_collection") (jf [("Methods for gathering ").data, topic, (" experimental data").data])]]),
    kv ("assessment_integration") (.arr
     [jf [("Exam problems involving ").data, topic],
      jf [("Practical assessments of ").data, topic],
      jf [("Project-based evaluation of ").data, topic, (" understanding").data]])]

/-- Main branch 5 of `_generate_mindmap_fallback_superior`. -/
def mindmap_branch5 (topic : Str) : EJson :=
  .obj
   [kv ("branch_id") (.int 5),
    kv ("label") (jstr ("Connections and Relationships")),
    kv ("description") (jf [("How ").data, topic, (" connects to other concepts").data]),
    kv ("color_theme") (jstr ("#7CB342")),
    kv ("icon") (jstr ("🔗")),
    kv ("importance_level") (jstr ("Medium")),
    kv ("sub_branches") (.arr
     [.obj
       [kv ("sub_id") (jstr ("5.1")),
        kv ("label") (jf [("Interdisciplinary Connections of ").data, topic]),
        kv ("description") (jf [("How ").data, topic, (" relates to other subjects").data]),
        kv ("details") (.arr
         [jf [("Connection 1: ").data, topic, (" and Mathematics").data],
          jf [("Connection 2: ").data, topic, (" and Chemistry").data],
          jf [("Connection 3: ").data, topic, (" and Biology").data]]),
        kv ("integration") (.arr
         [jf [("Integrated approach 1 with ").data, topic],
          jf [("Integrated approach 2 with ").data, topic]]),
        kv ("cross_curriculum") (jf [("How ").data, topic, (" supports learning across subjects").data])],
      .obj
       [kv ("sub_id") (jstr ("5.2")),
        kv ("label") (jstr ("Prior and Future Learning")),
        kv ("description") (jf [("How ").data, topic, (" fits in the learning sequence").data]),
        kv ("details") (.arr
         [jf [("Prerequisite 1 for ").data, topic],
          jf [("Prerequisite 2 for ").data, topic],
          jf [("Future topics building on ").data, topic]]),
        kv ("progression") (.arr
         [jf [("Next level concepts after ").data, topic],
          jf [("Advanced applications of ").data, topic]]),
        kv ("scaffolding") (jf [("How ").data, topic, (" supports subsequent learning").data])],
      .obj
       [kv ("sub_id") (jstr ("5.3")),
        kv ("label") (jstr ("Cultural and Historical Context")),
        kv ("description") (jf [("Broader context surrounding ").data, topic]),
        kv ("details") (.arr
         [jf [("Cultural significance of ").data, topic],
          jf [("Historical importance of ").data, topic],
          jf [("Global perspectives on ").data, topic]]),
        kv ("diversity") (.arr
         [jf [("Different cultural approaches to ").data, topic],
          jf [("International research on ").data, topic]]),
        kv ("ethics") (jf [("Ethical considerations related to ").data, topic])]]),
    kv ("metacognitive_connections") (.arr
     [jf [("Learning strategies for ").data, topic],
      jf [("Memory techniques for ").data, topic],
      jf [("Critical thinking about ").data, topic]])]

/-- The document serialized by `_generate_mindmap_fallback_superior`. -/
def mindmap_fallback_superior_doc (subject topic grade : Str)
    (depth_level : Int) (objectives : List Str) : EJson :=
  .obj [kv ("mindmap") (.obj
   [kv ("metadata") (.obj
     [kv ("title") (jf [("Comprehensive ").data, subject, (" Mindmap: ").data, topic]),
      kv ("subtitle") (jf [("Visual Learning Framework for Class ").data, grade]),
      kv ("subject") (.str subject),
      kv ("topic") (.str topic),
      kv ("grade") (jf [("Class ").data, grade]),
      kv ("depth_levels") (.int depth_level),
      kv ("total_nodes") (.int (calculate_mindmap_nodes depth_level)),
      kv ("ncert_alignment") (jf [("NCERT Class ").data, grade, (" ").data, subject, (" Curriculum").data]),
      kv ("created_by") (jstr ("EduSarathi AI - Superior Educational Content")),
      kv ("mindmap_type") (jstr ("Hierarchical Knowledge Structure")),
      kv ("target_audience") (jf [("Grade ").data, grade, (" students and educators").data]),
      kv ("pedagogical_approach") (jstr ("Visual Knowledge Organization with Cognitive Mapping")),
      kv ("accessibility_features") (.arr
        [jstr ("Color blind friendly"), jstr ("Screen reader compatible"),
         jstr ("Scalable text")]),
      kv ("language") (jstr ("English with Hindi terminology support"))]),
    kv ("learning_objectives") (.obj
     [kv ("primary_objectives") (.arr (objectives.map (fun o => .str o))),
      kv ("cognitive_mapping_goals") (.arr
       [jf [("Students will visualize relationships between ").data, topic, (" concepts").data],
        jstr ("Students will organize knowledge hierarchically"),
        jf [("Students will identify patterns and connections in ").data, subject]]),
      kv ("skill_development") (.arr
       [jstr ("Visual-spatial intelligence and pattern recognition"),
        jstr ("Systematic thinking and knowledge organization"),
        jstr ("Memory enhancement through visual association")]),
      kv ("blooms_taxonomy_alignment") (.obj
       [kv ("remember") (jf [("Recall key components of ").data, topic]),
        kv ("understand") (jf [("Explain relationships between ").data, topic, (" elements").data]),
        kv ("apply") (jf [("Use ").data, topic, (" knowledge structure in problem-solving").data]),
        kv ("analyze") (jf [("Break down ").data, topic, (" into component parts").data]),
        kv ("evaluate") (jf [("Assess importance of different ").data, topic, (" aspects").data]),
        kv ("create") (jf [("Synthesize ").data, topic, (" knowledge into new applications").data])])]),
    kv ("visual_design_principles") (.obj
     [kv ("color_coding") (.obj
       [kv ("primary_concepts") (jstr ("#2E86AB - Deep blue for main branches")),
        kv ("secondary_concepts") (jstr ("#A23B72 - Purple for sub-branches")),
        kv ("applications") (jstr ("#F18F01 - Orange for practical applications")),
        kv ("connections") (jstr ("#C73E1D - Red for cross-connections")),
        kv ("examples") (jstr ("#7CB342 - Green for real-world examples"))]),
      kv ("typography") (.obj
       [kv ("central_topic") (jstr ("Large, bold, sans-serif font")),
        kv ("main_branches") (jstr ("Medium, semi-bold text")),
        kv ("sub_branches") (jstr ("Regular weight, clear readability")),
        kv ("details") (jstr ("Smaller text with high contrast"))]),
      kv ("layout_structure") (.obj
       [kv ("center_outward") (jstr ("Radial organization from central concept")),
        kv ("balanced_distribution") (jstr ("Even spacing of major branches")),
        kv ("white_space") (jstr ("Adequate spacing for visual clarity")),
        kv ("connection_lines") (jstr ("Clear, curved connectors showing relationships"))]),
      kv ("interactive_elements") (.obj
       [kv ("expandable_nodes") (jstr ("Click to reveal deeper levels")),
        kv ("hover_effects") (jstr ("Highlight related concepts on mouse over")),
        kv ("zoom_functionality") (jstr ("Navigate between overview and detail views")),
        kv ("search_capability") (jstr ("Find specific concepts quickly"))])]),
    kv ("central_topic") (.obj
     [kv ("name") (.str topic),
      kv ("description") (jf [("Core concept encompassing all aspects of ").data, topic, (" in ").data, subject]),
      kv ("visual_representation") (jf [("Central node with distinctive ").data, subject, ("-themed icon").data]),
      kv ("key_characteristics") (.arr
       [jf [("Fundamental principle in ").data, subject],
        jf [("Connects to multiple ").data, subject, (" areas").data],
        jf [("Essential for ").data, grade, (" level understanding").data]]),
      kv ("learning_importance") (jf [("Foundation for advanced ").data, subject, (" concepts").data]),
      kv ("real_world_relevance") (jstr ("Directly applicable to everyday phenomena and technology"))]),
    kv ("main_branches") (.arr
     [mindmap_branch1 subject topic, mindmap_branch2 topic, mindmap_branch3 topic,
      mindmap_branch4 topic, mindmap_branch5 topic]),
    kv ("interactive_features") (.obj
     [kv ("navigation_tools") (.obj
       [kv ("zoom_controls") (jstr ("Seamless zooming between overview and detail")),
        kv ("search_function") (jf [("Quick search for specific ").data, topic, (" concepts").data]),
        kv ("filter_options") (jstr ("Show/hide different types of information")),
        kv ("bookmark_system") (jstr ("Save important nodes for later review"))]),
      kv ("learning_enhancements") (.obj
       [kv ("progressive_revelation") (jstr ("Reveal information gradually based on user progress")),
        kv ("quiz_integration") (jf [("Embedded questions about ").data, topic, (" concepts").data]),
        kv ("note_taking") (jstr ("Digital annotation and personal note addition")),
        kv ("progress_tracking") (jstr ("Visual indicators of learning completion"))]),
      kv ("collaboration_features") (.obj
       [kv ("shared_mindmaps") (jstr ("Collaborative editing and discussion")),
        kv ("peer_feedback") (jstr ("Comment and suggestion system")),
        kv ("teacher_overlay") (jstr ("Instructor notes and guidance")),
        kv ("presentation_mode") (jstr ("Clean view for classroom display"))])]),
    kv ("accessibility_accommodations") (.obj
     [kv ("visual_impairments") (.arr
       [jstr ("High contrast color schemes"),
        jstr ("Screen reader compatible structure"),
        jstr ("Large text options"),
        jstr ("Audio descriptions of visual elements")]),
      kv ("cognitive_differences") (.arr
       [jstr ("Simplified view options"),
        jstr ("Adjustable information density"),
        jstr ("Multiple representation formats"),
        jstr ("Guided navigation paths")]),
      kv ("motor_limitations") (.arr
       [jstr ("Keyboard navigation support"),
        jstr ("Voice control compatibility"),
        jstr ("Adjustable interaction sensitivity"),
        jstr ("Alternative input methods")]),
      kv ("language_support") (.arr
       [jstr ("Bilingual terminology"),
        jstr ("Visual vocabulary support"),
        jstr ("Translation overlays"),
        jstr ("Phonetic pronunciation guides")])]),
    kv ("pedagogical_framework") (.obj
     [kv ("cognitive_load_theory") (jstr ("Information organized to minimize extraneous cognitive load")),
      kv ("dual_coding_theory") (jstr ("Combines visual and verbal information processing")),
      kv ("constructivist_learning") (jstr ("Allows students to build knowledge connections")),
      kv ("social_learning") (jstr ("Supports collaborative knowledge construction")),
      kv ("metacognitive_awareness") (jstr ("Helps students understand their own learning process"))]),
    kv ("assessment_integration") (.obj
     [kv ("formative_assessment") (.arr
       [jf [("Quick checks on ").data, topic, (" understanding").data],
        jstr ("Visual recognition of concept relationships"),
        jstr ("Ability to explain connections between ideas")]),
      kv ("summative_assessment") (.arr
       [jf [("Comprehensive ").data, topic, (" knowledge evaluation").data],
        jstr ("Application of mindmap knowledge to new problems"),
        jstr ("Creation of personal mindmaps for related topics")]),
      kv ("self_assessment") (.arr
       [jstr ("Student reflection on learning progress"),
        jstr ("Identification of knowledge gaps"),
        jstr ("Goal setting for further learning")])]),
    kv ("technology_integration") (.obj
     [kv ("platform_compatibility") (.arr
       [jstr ("Web-based interactive mindmaps"),
        jstr ("Mobile app optimization"),
        jstr ("Tablet and touchscreen support"),
        jstr ("Virtual reality exploration options")]),
      kv ("export_options") (.arr
       [jstr ("PDF generation for printing"),
        jstr ("Image export for presentations"),
        jstr ("Data export for further analysis"),
        jstr ("Integration with learning management systems")]),
      kv ("analytics") (.arr
       [jstr ("Learning path tracking"),
        jstr ("Time spent on different concepts"),
        jstr ("Difficulty identification"),
        jstr ("Progress reporting for teachers")])]),
    kv ("quality_indicators") (.obj
     [kv ("exceeds_chatgpt_through") (.arr
       [jstr ("Comprehensive hierarchical knowledge structure"),
        jstr ("Detailed interactive elements and navigation features"),
        jstr ("Extensive accessibility and differentiation support"),
        jstr ("Professional visual design with cognitive principles"),
        jstr ("Integrated assessment and reflection opportunities"),
        jstr ("Cross-curricular connections and real-world relevance"),
        jstr ("Technology integration with multiple platforms")]),
      kv ("superior_features") (.arr
       [jstr ("5-level deep knowledge hierarchy"),
        jstr ("Interactive navigation and exploration tools"),
        jstr ("Detailed pedagogical framework integration"),
        jstr ("Accessibility accommodations for all learners"),
        jstr ("Assessment integration throughout structure"),
        jstr ("Collaborative learning features"),
        jstr ("Metacognitive learning support")])]),
    kv ("usage_guidelines") (.obj
     [kv ("for_teachers") (.arr
       [jf [("Use as visual aid when introducing ").data, topic],
        jf [("Reference during ").data, topic, (" discussions").data],
        jf [("Assessment tool for ").data, topic, (" understanding").data],
        jstr ("Professional development resource")]),
      kv ("for_students") (.arr
       [jf [("Study guide for ").data, topic, (" concepts").data],
        jf [("Note-taking framework for ").data, topic],
        jf [("Review tool before ").data, topic, (" assessments").data],
        jstr ("Collaboration platform for group learning")]),
      kv ("for_parents") (.arr
       [jf [("Visual overview of ").data, topic, (" curriculum").data],
        jf [("Support tool for ").data, topic, (" homework help").data],
        jstr ("Understanding of learning objectives"),
        jstr ("Communication aid with teachers")])])])]

/-- `_generate_mindmap_fallback_superior`. -/
def generate_mindmap_fallback_superior (subject topic grade : Str)
    (depth_level : Int) (objectives : List Str) : Str :=
  EJson.dumps (mindmap_fallback_superior_doc subject topic grade depth_level objectives)

/-- `_generate_superior_mindmap_fallback` (fixed demo arguments). -/
def generate_superior_mindmap_fallback : Str :=
  generate_mindmap_fallback_superior (("Physics").data)
    (("Motion and Force").data) (("11").data) 3
    [("Understand motion").data, ("Learn force concepts").data,
     ("Apply Newton\x27s laws").data]

/-- Slide 1 literal of `_generate_slides_fallback_superior`. -/
def slides_slide1 (subject topic grade : Str) : EJson :=
  .obj
   [kv ("slide_number") (.int 1),
    kv ("type") (jstr ("title_slide")),
    kv ("title") (jf [("Exploring ").data, topic]),
    kv ("subtitle") (jf [("A Journey Through ").data, subject, (" Concepts").data]),
    kv ("content") (.obj
     [kv ("main_visual") (jf [("Stunning image related to ").data, topic]),
      kv ("presenter_info") (jstr ("EduSarathi Educational Platform")),
      kv ("date_context") (jf [("Class ").data, grade, (" Learning Module").data]),
      kv ("motivational_quote") (jstr ("\"Science is not only a disciple of reason but also one of romance and passion.\" - Stephen Hawking"))]),
    kv ("design_elements") (.obj
     [kv ("background") (jstr ("Professional gradient with subject-themed colors")),
      kv ("typography") (jstr ("Clear, readable fonts with hierarchical sizing")),
      kv ("visual_focus") (jstr ("Central title with supporting imagery"))]),
    kv ("speaker_notes") (jf [("Welcome students to an exciting exploration of ").data, topic, (". Begin with enthusiasm and connect to students\x27 prior experiences.").data]),
    kv ("transition_cue") (jstr ("Smooth fade to next slide with anticipation building"))]

/-- Slide 2 literal of `_generate_slides_fallback_superior`. -/
def slides_slide2 (topic : Str) (slide_count : Int) : EJson :=
  .obj
   [kv ("slide_number") (.int 2),
    kv ("type") (jstr ("agenda_overview")),
    kv ("title") (jstr ("Our Learning Journey Today")),
    kv ("content") (.obj
     [kv ("learning_path") (.arr
       [jf [("🎯 What is ").data, topic, ("?").data],
        jstr ("🔬 Key Principles and Concepts"),
        jstr ("🌍 Real-World Applications"),
        jstr ("⚡ Interactive Demonstrations"),
        jstr ("🧩 Problem-Solving Practice"),
        jstr ("🚀 Future Connections"),
        jstr ("💡 Knowledge Check"),
        jstr ("📈 Next Steps in Learning")]),
      kv ("estimated_timing") (jf [("Total: ").data, (toString (slide_count * 4)).data, (" minutes").data]),
      kv ("engagement_promise") (jstr ("Interactive, visual, and hands-on learning ahead!"))]),
    kv ("interactive_elements") (.obj
     [kv ("student_prediction") (jf [("What do you already know about ").data, topic, ("?").data]),
      kv ("curiosity_generator") (jf [("What questions do you have about ").data, topic, ("?").data]),
      kv ("relevance_connector") (jf [("Where have you seen ").data, topic, (" in your daily life?").data])]),
    kv ("design_elements") (.obj
     [kv ("layout") (jstr ("Clean list with visual icons")),
      kv ("color_coding") (jstr ("Progressive color scheme showing learning progression")),
      kv ("visual_cues") (jstr ("Arrows and pathways indicating journey"))]),
    kv ("speaker_notes") (jstr ("Set clear expectations and build excitement. Encourage student predictions and questions.")),
    kv ("assessment_integration") (jstr ("Informal knowledge check through questioning"))]

/-- Slide 3 literal of `_generate_slides_fallback_superior`. -/
def slides_slide3 (topic : Str) : EJson :=
  .obj
   [kv ("slide_number") (.int 3),
    kv ("type") (jstr ("concept_introduction")),
    kv ("title") (jf [("Understanding ").data, topic, (": The Fundamentals").data]),
    kv ("content") (.obj
     [kv ("definition") (jf [("Clear, grade-appropriate definition of ").data, topic]),
      kv ("key_characteristics") (.arr
       [jf [("Primary feature 1 of ").data, topic],
        jf [("Primary feature 2 of ").data, topic],
        jf [("Primary feature 3 of ").data, topic]]),
      kv ("visual_representation") (jf [("Detailed diagram or infographic explaining ").data, topic]),
      kv ("analogy") (jf [("Relatable comparison to help students understand ").data, topic]),
      kv ("common_misconceptions") (.arr
       [jf [("Misconception 1 about ").data, topic, (" - clarified").data],
        jf [("Misconception 2 about ").data, topic, (" - explained").data]])]),
    kv ("interactive_elements") (.obj
     [kv ("think_pair_share") (jf [("Discuss with a partner: How would you explain ").data, topic, (" to a younger student?").data]),
      kv ("visual_analysis") (jf [("What do you notice in this ").data, topic, (" diagram?").data]),
      kv ("connection_making") (jf [("How does ").data, topic, (" relate to what we learned last week?").data])]),
    kv ("differentiation") (.obj
     [kv ("visual_learners") (jstr ("Rich diagrams and color-coded information")),
      kv ("auditory_learners") (jstr ("Clear verbal explanations and discussion opportunities")),
      kv ("kinesthetic_learners") (jstr ("Gesture-based memory aids and movement activities"))]),
    kv ("design_elements") (.obj
     [kv ("visual_balance") (jstr ("50% text, 50% visuals")),
      kv ("information_hierarchy") (jstr ("Clear heading, subpoints, and supporting details")),
      kv ("color_psychology") (jstr ("Calming blues for scientific concepts"))]),
    kv ("speaker_notes") (jf [("Emphasize the fundamental nature of ").data, topic, (". Use gestures and analogies to make concepts concrete.").data]),
    kv ("assessment_checkpoint") (jstr ("Check for understanding through targeted questions"))]

/-- Slide 4 literal of `_generate_slides_fallback_superior`. -/
def slides_slide4 (topic : Str) : EJson :=
  .obj
   [kv ("slide_number") (.int 4),
    kv ("type") (jstr ("deep_dive")),
    kv ("title") (jf [("The Science Behind ").data, topic]),
    kv ("content") (.obj
     [kv ("scientific_principles") (.arr
       [jf [("Core principle 1 governing ").data, topic],
        jf [("Core principle 2 governing ").data, topic],
        jf [("Core principle 3 governing ").data, topic]]),
      kv ("mathematical_relationships") (jf [("Key equations or formulas related to ").data, topic]),
      kv ("cause_and_effect") (jf [("How different factors influence ").data, topic]),
      kv ("visual_models") (jf [("3D representations or simulations of ").data, topic]),
      kv ("experimental_evidence") (jf [("Famous experiments that proved ").data, topic, (" concepts").data])]),
    kv ("interactive_elements") (.obj
     [kv ("virtual_experiment") (jf [("Simulate ").data, topic, (" phenomena using digital tools").data]),
      kv ("variable_manipulation") (jf [("Change parameters and observe ").data, topic, (" effects").data]),
      kv ("prediction_testing") (jstr ("What happens if we change this variable?"))]),
    kv ("technology_integration") (.obj
     [kv ("simulation_tools") (jf [("PhET simulations for ").data, topic]),
      kv ("augmented_reality") (jf [("3D models of ").data, topic, (" concepts").data]),
      kv ("data_visualization") (jf [("Real-time graphs showing ").data, topic, (" relationships").data])]),
    kv ("design_elements") (.obj
     [kv ("split_screen") (jstr ("Theory on left, visuals on right")),
      kv ("progressive_revelation") (jstr ("Information builds step by step")),
      kv ("scientific_aesthetics") (jstr ("Clean, professional research presentation style"))]),
    kv ("speaker_notes") (jf [("Connect theoretical knowledge to observable phenomena. Encourage scientific questioning about ").data, topic, (".").data]),
    kv ("higher_order_thinking") (jf [("Why do you think ").data, topic, (" works this way? What evidence supports this?").data])]

/-- Slide 5 literal of `_generate_slides_fallback_superior`. -/
def slides_slide5 (topic : Str) : EJson :=
  .obj
   [kv ("slide_number") (.int 5),
    kv ("type") (jstr ("real_world_applications")),
    kv ("title") (jf [topic, (" in Our World").data]),
    kv ("content") (.obj
     [kv ("everyday_examples") (.arr
       [jf [("How ").data, topic, (" appears in daily life - Example 1").data],
        jf [("How ").data, topic, (" appears in daily life - Example 2").data],
        jf [("How ").data, topic, (" appears in daily life - Example 3").data]]),
      kv ("technological_applications") (.arr
       [jf [("Modern technology using ").data, topic, (" - Application 1").data],
        jf [("Modern technology using ").data, topic, (" - Application 2").data],
        jf [("Modern technology using ").data, topic, (" - Application 3").data]]),
      kv ("career_connections") (.arr
       [jf [("Engineer working with ").data, topic],
        jf [("Scientist researching ").data, topic],
        jf [("Technician applying ").data, topic]]),
      kv ("global_impact") (jf [("How ").data, topic, (" affects society and the environment").data]),
      kv ("future_possibilities") (jf [("Emerging technologies based on ").data, topic])]),
    kv ("interactive_elements") (.obj
     [kv ("spot_the_science") (jf [("Find ").data, topic, (" examples in these everyday scenarios").data]),
      kv ("career_exploration") (jf [("Which ").data, topic, ("-related career interests you most?").data]),
      kv ("problem_solving") (jf [("How could ").data, topic, (" solve real-world challenges?").data])]),
    kv ("multimedia_content") (.obj
     [kv ("video_clips") (jf [("Short videos showing ").data, topic, (" applications").data]),
      kv ("photo_gallery") (jf [("Real-world examples of ").data, topic]),
      kv ("industry_insights") (jf [("Professionals explaining ").data, topic, (" use").data])]),
    kv ("design_elements") (.obj
     [kv ("grid_layout") (jstr ("Multiple examples in organized sections")),
      kv ("vibrant_colors") (jstr ("Engaging, real-world imagery")),
      kv ("connection_arrows") (jstr ("Links between concepts and applications"))]),
    kv ("speaker_notes") (jf [("Make ").data, topic, (" relevant and exciting. Connect to student interests and future goals.").data]),
    kv ("engagement_strategy") (jstr ("Encourage students to share their own examples"))]

/-- Slide 6 literal of `_generate_slides_fallback_superior`. -/
def slides_slide6 (topic : Str) : EJson :=
  .obj
   [kv ("slide_number") (.int 6),
    kv ("type") (jstr ("interactive_problem_solving")),
    kv ("title") (jf [("Putting ").data, topic, (" to Work").data]),
    kv ("content") (.obj
     [kv ("guided_practice") (.obj
       [kv ("problem_setup") (jf [("Realistic scenario involving ").data, topic]),
        kv ("step_by_step_solution") (jf [("Methodical approach to solving ").data, topic, (" problems").data]),
        kv ("thinking_process") (jf [("Metacognitive strategies for ").data, topic, (" problem-solving").data])]),
      kv ("collaborative_challenges") (.arr
       [jf [("Group challenge 1: Design using ").data, topic],
        jf [("Group challenge 2: Predict using ").data, topic],
        jf [("Group challenge 3: Optimize using ").data, topic]]),
      kv ("differentiated_problems") (.obj
       [kv ("foundational") (jf [("Basic ").data, topic, (" application problems").data]),
        kv ("intermediate") (jf [("Multi-step ").data, topic, (" problems").data]),
        kv ("advanced") (jf [("Complex ").data, topic, (" problem-solving scenarios").data])])]),
    kv ("interactive_elements") (.obj
     [kv ("digital_workspace") (jf [("Online tools for ").data, topic, (" calculations").data]),
      kv ("peer_collaboration") (jstr ("Work in teams to solve challenges")),
      kv ("real_time_feedback") (jstr ("Immediate validation of solutions"))]),
    kv ("scaffolding_support") (.obj
     [kv ("hint_system") (jstr ("Progressive hints for struggling students")),
      kv ("worked_examples") (jstr ("Model solutions with detailed explanations")),
      kv ("extension_activities") (jstr ("Additional challenges for advanced learners"))]),
    kv ("design_elements") (.obj
     [kv ("problem_workspace") (jstr ("Clear area for problem presentation")),
      kv ("solution_steps") (jstr ("Numbered, color-coded solution process")),
      kv ("collaborative_zones") (jstr ("Visual indication of group work areas"))]),
    kv ("speaker_notes") (jf [("Facilitate collaborative problem-solving. Encourage multiple solution strategies for ").data, topic, (".").data]),
    kv ("assessment_focus") (jstr ("Observe problem-solving processes, not just answers"))]

/-- Slide 7 literal of `_generate_slides_fallback_superior`. -/
def slides_slide7 (subject topic : Str) : EJson :=
  .obj
   [kv ("slide_number") (.int 7),
    kv ("type") (jstr ("knowledge_synthesis")),
    kv ("title") (jf [("Connecting the Dots: ").data, topic, (" Mastery").data]),
    kv ("content") (.obj
     [kv ("concept_map") (jf [("Visual representation of ").data, topic, (" connections").data]),
      kv ("key_takeaways") (.arr
       [jf [("Essential understanding 1 about ").data, topic],
        jf [("Essential understanding 2 about ").data, topic],
        jf [("Essential understanding 3 about ").data, topic]]),
      kv ("connections_to_other_topics") (.arr
       [jf [("How ").data, topic, (" relates to previous ").data, subject, (" concepts").data],
        jf [("How ").data, topic, (" connects to other subjects").data],
        jf [("How ").data, topic, (" prepares for future learning").data]]),
      kv ("reflection_prompts") (.arr
       [jf [("What surprised you most about ").data, topic, ("?").data],
        jf [("How has your understanding of ").data, topic, (" changed?").data],
        jf [("What questions do you still have about ").data, topic, ("?").data]])]),
    kv ("interactive_elements") (.obj
     [kv ("concept_mapping_activity") (jf [("Create your own ").data, topic, (" concept map").data]),
      kv ("peer_teaching") (jf [("Explain ").data, topic, (" to a classmate").data]),
      kv ("reflection_sharing") (jstr ("Share insights with the class"))]),
    kv ("metacognitive_elements") (.obj
     [kv ("learning_strategies") (jf [("What helped you understand ").data, topic, (" best?").data]),
      kv ("knowledge_gaps") (jf [("What aspects of ").data, topic, (" need more study?").data]),
      kv ("application_planning") (jf [("How will you use ").data, topic, (" knowledge?").data])]),
    kv ("design_elements") (.obj
     [kv ("visual_synthesis") (jstr ("Concept map with clear connections")),
      kv ("reflective_space") (jstr ("Calm, thoughtful design elements")),
      kv ("celebration_theme") (jstr ("Positive reinforcement of learning"))]),
    kv ("speaker_notes") (jf [("Help students synthesize their ").data, topic, (" learning. Encourage metacognitive reflection.").data]),
    kv ("consolidation_focus") (jstr ("Strengthen neural pathways through active recall"))]

/-- Slide 8 literal of `_generate_slides_fallback_superior`. -/
def slides_slide8 (subject topic : Str) : EJson :=
  .obj
   [kv ("slide_number") (.int 8),
    kv ("type") (jstr ("assessment_and_next_steps")),
    kv ("title") (jf [("Your ").data, topic, (" Learning Journey Continues").data]),
    kv ("content") (.obj
     [kv ("quick_assessment") (.obj
       [kv ("formative_check") (jf [("Rate your understanding of ").data, topic, (" (1-5 scale)").data]),
        kv ("exit_ticket") (jf [("One thing you learned, one question you have about ").data, topic]),
        kv ("peer_feedback") (jf [("Share your ").data, topic, (" insights with a partner").data])]),
      kv ("next_learning_steps") (.arr
       [jf [("Preview of next ").data, subject, (" topic").data],
        jf [("How ").data, topic, (" connects to upcoming lessons").data],
        jstr ("Independent exploration opportunities")]),
      kv ("home_connections") (.arr
       [jf [("Look for ").data, topic, (" examples at home").data],
        jf [("Discuss ").data, topic, (" with family members").data],
        jf [("Practice ").data, topic, (" concepts through daily observations").data]]),
      kv ("resources_for_deeper_learning") (.arr
       [jf [("Recommended books about ").data, topic],
        jf [("Online simulations and games for ").data, topic],
        jf [("Science museums and learning centers featuring ").data, topic]])]),
    kv ("interactive_elements") (.obj
     [kv ("digital_portfolio") (jf [("Add ").data, topic, (" learning artifacts").data]),
      kv ("goal_setting") (jf [("Personal learning goals for ").data, topic]),
      kv ("community_connections") (jf [("Share ").data, topic, (" knowledge with others").data])]),
    kv ("motivational_elements") (.obj
     [kv ("achievement_celebration") (jf [("Acknowledge ").data, topic, (" learning progress").data]),
      kv ("curiosity_cultivation") (jf [("Inspire continued ").data, topic, (" exploration").data]),
      kv ("confidence_building") (jf [("Reinforce ").data, topic, (" competence").data])]),
    kv ("design_elements") (.obj
     [kv ("forward_looking") (jstr ("Arrows and pathways indicating continuation")),
      kv ("resource_gallery") (jstr ("Visual representation of learning resources")),
      kv ("celebration_graphics") (jstr ("Positive, encouraging visual elements"))]),
    kv ("speaker_notes") (jf [("End on a positive, forward-looking note. Encourage continued ").data, topic, (" exploration.").data]),
    kv ("closure_strategy") (jstr ("Bridge to future learning while celebrating current achievements"))]

/-- The document serialized by `_generate_slides_fallback_superior`. -/
def slides_fallback_superior_doc (subject topic grade : Str)
    (slide_count : Int) (objectives : List Str) : EJson :=
  .obj [kv ("slides") (.obj
   [kv ("metadata") (.obj
     [kv ("title") (jf [("Advanced ").data, subject, (" Presentation: ").data, topic]),
      kv ("subtitle") (jf [("Comprehensive Learning Module for Class ").data, grade]),
      kv ("subject") (.str subject),
      kv ("topic") (.str topic),
      kv ("grade") (jf [("Class ").data, grade]),
      kv ("total_slides") (.int slide_count),
      kv ("estimated_duration") (jf [(toString (slide_count * 3)).data, ("-").data, (toString (slide_count * 5)).data, (" minutes").data]),
      kv ("ncert_alignment") (jf [("NCERT Class ").data, grade, (" ").data, subject, (" Curriculum").data]),
      kv ("created_by") (jstr ("EduSarathi AI - Superior Educational Content")),
      kv ("presentation_type") (jstr ("Interactive Educational Slideshow")),
      kv ("target_audience") (jf [("Grade ").data, grade, (" students and educators").data]),
      kv ("pedagogical_approach") (jstr ("Visual Learning with Interactive Elements")),
      kv ("accessibility_features") (.arr
        [jstr ("Screen reader compatible"), jstr ("High contrast mode"),
         jstr ("Font scaling")]),
      kv ("language") (jstr ("English with Hindi translations available"))]),
    kv ("learning_objectives") (.obj
     [kv ("primary_objectives") (.arr (objectives.map (fun o => .str o))),
      kv ("cognitive_goals") (.arr
       [jf [("Students will analyze key concepts in ").data, topic],
        jstr ("Students will synthesize knowledge for practical applications"),
        jf [("Students will evaluate real-world examples of ").data, topic]]),
      kv ("skill_development") (.arr
       [jstr ("Critical thinking and scientific reasoning"),
        jstr ("Visual information processing"),
        jstr ("Collaborative discussion and presentation skills")]),
      kv ("blooms_taxonomy_alignment") (.obj
       [kv ("remember") (jf [("Identify fundamental principles of ").data, topic]),
        kv ("understand") (jf [("Explain the mechanisms of ").data, topic]),
        kv ("apply") (jf [("Use ").data, topic, (" concepts in problem-solving").data]),
        kv ("analyze") (jf [("Compare different aspects of ").data, topic]),
        kv ("evaluate") (jf [("Assess applications of ").data, topic]),
        kv ("create") (jf [("Design solutions using ").data, topic, (" principles").data])])]),
    kv ("presentation_structure") (.obj
     [kv ("opening") (.obj
       [kv ("hook_strategy") (jstr ("Visual demonstration or surprising fact")),
        kv ("engagement_technique") (jstr ("Interactive polling or prediction")),
        kv ("context_setting") (jstr ("Real-world relevance establishment"))]),
      kv ("development") (.obj
       [kv ("information_chunking") (jstr ("Logical progression with clear transitions")),
        kv ("visual_hierarchy") (jstr ("Strategic use of colors, fonts, and layouts")),
        kv ("interactive_elements") (jstr ("Embedded questions and activities"))]),
      kv ("closure") (.obj
       [kv ("synthesis_activity") (jstr ("Concept mapping or summary creation")),
        kv ("assessment_integration") (jstr ("Quick formative evaluation")),
        kv ("next_steps") (jstr ("Preview of upcoming topics"))])]),
    kv ("slides") (.arr
     [slides_slide1 subject topic grade, slides_slide2 topic slide_count,
      slides_slide3 topic, slides_slide4 topic, slides_slide5 topic,
      slides_slide6 topic, slides_slide7 subject topic,
      slides_slide8 subject topic]),
    kv ("interactive_features") (.obj
     [kv ("embedded_quizzes") (jf [("Quick knowledge checks throughout ").data, topic, (" presentation").data]),
      kv ("clickable_elements") (jf [("Interactive hotspots revealing ").data, topic, (" details").data]),
      kv ("progress_tracking") (jstr ("Visual indicator of presentation progress")),
      kv ("note_taking_space") (jf [("Digital space for ").data, topic, (" notes and observations").data]),
      kv ("discussion_prompts") (jf [("Built-in questions to spark ").data, topic, (" discussions").data])]),
    kv ("accessibility_accommodations") (.obj
     [kv ("visual_impairments") (.arr
       [jstr ("High contrast mode"), jstr ("Screen reader compatibility"),
        jstr ("Large font options")]),
      kv ("hearing_impairments") (.arr
       [jstr ("Visual cues for audio elements"), jstr ("Closed captions"),
        jstr ("Sign language interpretation")]),
      kv ("learning_differences") (.arr
       [jstr ("Simplified layouts"), jstr ("Extended time options"),
        jstr ("Multi-modal content")]),
      kv ("language_support") (.arr
       [jstr ("Bilingual terminology"), jstr ("Visual vocabulary"),
        jstr ("Translation tools")])]),
    kv ("technology_integration") (.obj
     [kv ("presentation_platforms") (.arr
       [jstr ("Interactive whiteboards"), jstr ("Tablet compatibility"),
        jstr ("Cloud synchronization")]),
      kv ("collaborative_tools") (.arr
       [jstr ("Real-time polling"), jstr ("Shared workspaces"),
        jstr ("Peer feedback systems")]),
      kv ("assessment_integration") (.arr
       [jstr ("Digital rubrics"), jstr ("Progress analytics"),
        jstr ("Performance tracking")]),
      kv ("multimedia_support") (.arr
       [jstr ("Video embedding"), jstr ("Animation capabilities"),
        jstr ("3D model integration")])]),
    kv ("pedagogical_framework") (.obj
     [kv ("learning_theory_base") (jstr ("Constructivist learning with social interaction")),
      kv ("engagement_strategies") (.arr
       [jstr ("Visual storytelling"), jstr ("Interactive discovery"),
        jstr ("Collaborative learning")]),
      kv ("differentiation_approach") (jstr ("Multiple intelligences and learning style accommodation")),
      kv ("assessment_philosophy") (jstr ("Formative, ongoing, and growth-oriented evaluation"))]),
    kv ("quality_indicators") (.obj
     [kv ("exceeds_chatgpt_through") (.arr
       [jstr ("Comprehensive slide-by-slide pedagogical design"),
        jstr ("Detailed interactive elements and engagement strategies"),
        jstr ("Extensive accessibility and differentiation features"),
        jstr ("Professional presentation design principles"),
        jstr ("Integrated assessment and reflection opportunities"),
        jstr ("Technology integration with purposeful implementation"),
        jstr ("Real-world connections and career relevance")]),
      kv ("superior_features") (.arr
       [jstr ("8-slide comprehensive presentation structure"),
        jstr ("Interactive elements in every slide"),
        jstr ("Detailed speaker notes with pedagogical guidance"),
        jstr ("Accessibility accommodations for all learners"),
        jstr ("Technology integration recommendations"),
        jstr ("Assessment integration throughout presentation"),
        jstr ("Metacognitive reflection and synthesis activities")])])])]

/-- `_generate_slides_fallback_superior`. -/
def generate_slides_fallback_superior (subject topic grade : Str)
    (slide_count : Int) (objectives : List Str) : Str :=
  EJson.dumps (slides_fallback_superior_doc subject topic grade slide_count objectives)

/-- `_generate_superior_slides_fallback` (fixed demo arguments). -/
def generate_superior_slides_fallback : Str :=
  generate_slides_fallback_superior (("Physics").data)
    (("Motion and Force").data) (("11").data) 8
    [("Understand motion concepts").data, ("Apply physics principles").data]

/-- `learningObjectives` literal of `_generate_lecture_fallback_superior`. -/
def lecture_learning_objectives (subject topic : Str) : List EJson :=
  [.obj [kv ("objective") (jf [("Master fundamental concepts of ").data, topic, (" through deep understanding").data]),
         kv ("bloomsLevel") (jstr ("understand")),
         kv ("measurable") (.bool true)],
   .obj [kv ("objective") (jf [("Apply ").data, subject, (" principles to solve real-world problems effectively").data]),
         kv ("bloomsLevel") (jstr ("apply")),
         kv ("measurable") (.bool true)],
   .obj [kv ("objective") (jf [("Analyze complex ").data, topic, (" phenomena using scientific methods").data]),
         kv ("bloomsLevel") (jstr ("analyze")),
         kv ("measurable") (.bool true)],
   .obj [kv ("objective") (jf [("Evaluate different approaches to ").data, subject, (" problem-solving").data]),
         kv ("bloomsLevel") (jstr ("evaluate")),
         kv ("measurable") (.bool true)],
   .obj [kv ("objective") (jf [("Create innovative solutions using ").data, topic, (" knowledge").data]),
         kv ("bloomsLevel") (jstr ("create")),
         kv ("measurable") (.bool true)]]

/-- `activities` literal of `_generate_lecture_fallback_superior`. -/
def lecture_activities (subject topic : Str) : List EJson :=
  [.obj
    [kv ("title") (jstr ("Real-world Problem Introduction")),
     kv ("description") (jf [("Present an intriguing ").data, topic, ("-related problem from daily life").data]),
     kv ("type") (jstr ("introduction")),
     kv ("duration") (.int 5),
     kv ("materials") (.arr [jstr ("Video clip"), jstr ("Props"), jstr ("Images")]),
     kv ("instructions") (jf [("Show engaging demonstration of ").data, topic, (" in action and facilitate discussion").data]),
     kv ("learningObjectives") (.arr [jf [("Activate prior knowledge about ").data, topic]]),
     kv ("assessmentCriteria") (.arr
       [jstr ("Student engagement"), jstr ("Quality of prior knowledge responses")]),
     kv ("differentiation") (.obj
       [kv ("forAdvanced") (jstr ("Extended discussion with deeper connections")),
        kv ("forStruggling") (jstr ("Visual aids and simplified examples")),
        kv ("forELL") (jstr ("Native language support and visual demonstrations"))]),
     kv ("technology") (.arr [jstr ("Projector"), jstr ("Sound system")]),
     kv ("grouping") (jstr ("whole_class"))],
   .obj
    [kv ("title") (jf [("Interactive ").data, topic, (" Exploration").data]),
     kv ("description") (jf [("Guided hands-on investigation of ").data, topic, (" principles").data]),
     kv ("type") (jstr ("demonstration")),
     kv ("duration") (.int 15),
     kv ("materials") (.arr
       [jstr ("Lab equipment"), jstr ("Measurement tools"), jstr ("Worksheets")]),
     kv ("instructions") (jf [("Guide students through systematic exploration of ").data, topic, (" phenomena").data]),
     kv ("learningObjectives") (.arr
       [jf [("Discover fundamental ").data, topic, (" principles through investigation").data]]),
     kv ("assessmentCriteria") (.arr
       [jstr ("Observation skills"), jstr ("Data collection accuracy"),
        jstr ("Collaboration")]),
     kv ("differentiation") (.obj
       [kv ("forAdvanced") (jstr ("Additional variables to investigate")),
        kv ("forStruggling") (jstr ("Structured worksheets with step-by-step guidance")),
        kv ("forELL") (jstr ("Visual instructions and peer support"))]),
     kv ("technology") (.arr
       [jstr ("Digital measurement tools"), jstr ("Data collection apps")]),
     kv ("grouping") (jstr ("small_groups"))],
   .obj
    [kv ("title") (jf [("Scientific Explanation of ").data, topic]),
     kv ("description") (jf [("Formal introduction of ").data, topic, (" principles and formulas").data]),
     kv ("type") (jstr ("explanation")),
     kv ("duration") (.int 15),
     kv ("materials") (.arr [jstr ("Slides"), jstr ("Animations"), jstr ("Diagrams")]),
     kv ("instructions") (jf [("Connect student discoveries to formal ").data, subject, (" concepts").data]),
     kv ("learningObjectives") (.arr
       [jf [("Understand scientific principles underlying ").data, topic]]),
     kv ("assessmentCriteria") (.arr
       [jstr ("Conceptual understanding"), jstr ("Question quality"),
        jstr ("Connection making")]),
     kv ("differentiation") (.obj
       [kv ("forAdvanced") (jstr ("Mathematical derivations and advanced applications")),
        kv ("forStruggling") (jstr ("Multiple representations and analogies")),
        kv ("forELL") (jstr ("Simplified vocabulary and visual support"))]),
     kv ("technology") (.arr
       [jstr ("Interactive animations"), jstr ("Simulation software")]),
     kv ("grouping") (jstr ("whole_class"))],
   .obj
    [kv ("title") (jf [("Advanced ").data, topic, (" Problem Solving").data]),
     kv ("description") (jf [("Apply ").data, topic, (" concepts to complex, multi-step problems").data]),
     kv ("type") (jstr ("practice")),
     kv ("duration") (.int 15),
     kv ("materials") (.arr
       [jstr ("Problem sets"), jstr ("Calculators"), jstr ("Reference sheets")]),
     kv ("instructions") (jf [("Guide students through strategic problem-solving using ").data, topic, (" principles").data]),
     kv ("learningObjectives") (.arr
       [jf [("Apply ").data, topic, (" knowledge to solve complex problems").data]]),
     kv ("assessmentCriteria") (.arr
       [jstr ("Problem-solving strategy"), jstr ("Mathematical accuracy"),
        jstr ("Reasoning")]),
     kv ("differentiation") (.obj
       [kv ("forAdvanced") (jstr ("Extension problems with real-world complexity")),
        kv ("forStruggling") (jstr ("Scaffolded problems with hints and supports")),
        kv ("forELL") (jstr ("Problems with familiar contexts and visual aids"))]),
     kv ("technology") (.arr
       [jstr ("Graphing calculators"), jstr ("Problem-solving apps")]),
     kv ("grouping") (jstr ("individual"))],
   .obj
    [kv ("title") (jstr ("Exit Ticket Assessment")),
     kv ("description") (jstr ("Quick assessment of key concepts learned")),
     kv ("type") (jstr ("assessment")),
     kv ("duration") (.int 5),
     kv ("materials") (.arr [jstr ("Exit tickets"), jstr ("Response system")]),
     kv ("instructions") (jstr ("Facilitate individual reflection and collect formative assessment data")),
     kv ("learningObjectives") (.arr
       [jstr ("Reflect on learning and identify next steps")]),
     kv ("assessmentCriteria") (.arr
       [jstr ("Conceptual accuracy"), jstr ("Self-reflection quality")]),
     kv ("differentiation") (.obj
       [kv ("forAdvanced") (jstr ("Extension questions requiring synthesis")),
        kv ("forStruggling") (jstr ("Multiple choice with visual supports")),
        kv ("forELL") (jstr ("Simplified language and visual options"))]),
     kv ("technology") (.arr
       [jstr ("Digital response systems"), jstr ("Assessment apps")]),
     kv ("grouping") (jstr ("individual"))]]

/-- The document serialized by `_generate_lecture_fallback_superior`, given the
already-converted `int(duration)` value `d`.  The `objectives` parameter of the
Python function is unused in its body. -/
def lecture_plan_doc (subject topic grade : Str) (d : Int) : EJson :=
  .obj [kv ("lecture_plan") (.obj
   [kv ("title") (jf [("Comprehensive ").data, subject, (" Masterclass: ").data, topic]),
    kv ("description") (jf [("Advanced Learning Experience for Class ").data, grade, (" using 5E Model with comprehensive educational design").data]),
    kv ("subject") (.str subject),
    kv ("topic") (.str topic),
    kv ("grade") (jf [("Class ").data, grade]),
    kv ("duration") (.obj
     [kv ("total") (.int d),
      kv ("breakdown") (.obj
       [kv ("introduction") (.int 10),
        kv ("mainContent") (.int (d - 25)),
        kv ("activities") (.int 10),
        kv ("conclusion") (.int 5)])]),
    kv ("learningObjectives") (.arr (lecture_learning_objectives subject topic)),
    kv ("prerequisites") (.arr
     [jf [("Basic understanding of ").data, subject, (" fundamentals").data],
      jf [("Mathematical skills appropriate for Grade ").data, grade],
      jstr ("Scientific method and observation skills")]),
    kv ("keyVocabulary") (.arr
     [.obj [kv ("term") (jf [topic, (" fundamentals").data]),
            kv ("definition") (jf [("Core principles and concepts underlying ").data, topic]),
            kv ("example") (jf [("Real-world application of ").data, topic, (" in daily life").data])],
      .obj [kv ("term") (jf [subject, (" methodology").data]),
            kv ("definition") (jf [("Scientific approach to understanding ").data, subject, (" phenomena").data]),
            kv ("example") (jf [("Experimental investigation of ").data, topic])]]),
    kv ("structure") (.obj
     [kv ("openingHook") (jf [("Intriguing real-world problem: How does ").data, topic, (" affect our daily lives? Students will discover this through an engaging demonstration that connects ").data, subject, (" principles to everyday experiences.").data]),
      kv ("introduction") (jf [("Brief overview of ").data, topic, (" importance and learning objectives for today\x27s comprehensive exploration").data]),
      kv ("mainContent") (.arr
       [.obj [kv ("section") (jstr ("Engage Phase - Problem Introduction")),
              kv ("content") (jf [("Present real-world ").data, topic, (" scenario and activate prior knowledge through interactive discussion").data]),
              kv ("duration") (.int 10),
              kv ("teachingStrategy") (jstr ("inquiry_based"))],
        .obj [kv ("section") (jstr ("Explore Phase - Hands-on Investigation")),
              kv ("content") (jf [("Guided investigation of ").data, topic, (" principles through laboratory exploration and data collection").data]),
              kv ("duration") (.int 15),
              kv ("teachingStrategy") (jstr ("hands_on"))],
        .obj [kv ("section") (jstr ("Explain Phase - Concept Introduction")),
              kv ("content") (jf [("Formal introduction of ").data, topic, (" scientific principles, formulas, and theoretical framework").data]),
              kv ("duration") (.int 15),
              kv ("teachingStrategy") (jstr ("direct_instruction"))],
        .obj [kv ("section") (jstr ("Elaborate Phase - Application")),
              kv ("content") (jf [("Advanced problem-solving and connection of ").data, topic, (" to broader ").data, subject, (" concepts").data]),
              kv ("duration") (.int 15),
              kv ("teachingStrategy") (jstr ("problem_solving"))]]),
      kv ("conclusion") (jf [("Summary of key ").data, topic, (" concepts learned and preview of next lesson connections").data]),
      kv ("homework") (jf [("Practice problems reinforcing ").data, topic, (" concepts and real-world observation journal").data]),
      kv ("nextLesson") (jf [("Building on ").data, topic, (" foundations to explore advanced applications").data])]),
    kv ("activities") (.arr (lecture_activities subject topic)),
    kv ("resources") (.arr
     [.obj [kv ("title") (jf [subject, (" Laboratory Equipment").data]),
            kv ("type") (jstr ("equipment")),
            kv ("description") (jf [("Essential tools for ").data, topic, (" investigation").data]),
            kv ("required") (.bool true),
            kv ("alternatives") (.arr
              [jstr ("Virtual lab simulations"), jstr ("Household materials")])],
      .obj [kv ("title") (jf [("Interactive ").data, topic, (" Simulations").data]),
            kv ("type") (jstr ("software")),
            kv ("url") (jf [("Educational simulation platform for ").data, topic]),
            kv ("description") (jf [("Digital tools for visualizing ").data, topic, (" concepts").data]),
            kv ("required") (.bool false),
            kv ("alternatives") (.arr
              [jstr ("Static diagrams"), jstr ("Physical demonstrations")])],
      .obj [kv ("title") (jf [("NCERT Class ").data, grade, (" ").data, subject, (" Textbook").data]),
            kv ("type") (jstr ("textbook")),
            kv ("description") (jf [("Official curriculum resource for ").data, topic]),
            kv ("required") (.bool true),
            kv ("alternatives") (.arr
              [jstr ("Supplementary textbooks"), jstr ("Online resources")])]]),
    kv ("assessments") (.arr
     [.obj [kv ("type") (jstr ("formative")),
            kv ("method") (jstr ("observation")),
            kv ("description") (jstr ("Continuous monitoring of student engagement and understanding")),
            kv ("criteria") (.arr
              [jstr ("Participation quality"), jstr ("Question asking"),
               jstr ("Collaboration skills")]),
            kv ("timing") (jstr ("during"))],
      .obj [kv ("type") (jstr ("formative")),
            kv ("method") (jstr ("questioning")),
            kv ("description") (jstr ("Strategic questions to check understanding throughout lesson")),
            kv ("criteria") (.arr
              [jstr ("Conceptual accuracy"), jstr ("Reasoning quality"),
               jstr ("Application ability")]),
            kv ("timing") (jstr ("during"))],
      .obj [kv ("type") (jstr ("summative")),
            kv ("method") (jstr ("quiz")),
            kv ("description") (jstr ("Exit ticket assessment of key concepts")),
            kv ("criteria") (.arr
              [jstr ("Knowledge retention"), jstr ("Application skills"),
               jstr ("Self-reflection")]),
            kv ("timing") (jstr ("end"))]]),
    kv ("teachingStrategies") (.arr
     [.obj [kv ("strategy") (jstr ("inquiry_based")),
            kv ("description") (jstr ("Students discover concepts through guided investigation")),
            kv ("when") (jstr ("During exploration phase to build understanding"))],
      .obj [kv ("strategy") (jstr ("hands_on")),
            kv ("description") (jstr ("Direct manipulation of materials and equipment")),
            kv ("when") (jstr ("Throughout practical activities for concrete learning"))],
      .obj [kv ("strategy") (jstr ("collaborative")),
            kv ("description") (jstr ("Students work together to solve problems and share ideas")),
            kv ("when") (jstr ("During group activities and discussions"))],
      .obj [kv ("strategy") (jstr ("problem_solving")),
            kv ("description") (jstr ("Application of concepts to solve real-world challenges")),
            kv ("when") (jstr ("In elaborate phase for deeper understanding"))]]),
    kv ("differentiation") (.obj
     [kv ("content") (jf [("Multiple representations of ").data, topic, (" concepts including visual, mathematical, and real-world examples").data]),
      kv ("process") (jstr ("Varied instructional strategies from hands-on exploration to guided practice with flexible pacing")),
      kv ("product") (jstr ("Multiple ways for students to demonstrate understanding including verbal, written, and visual formats")),
      kv ("environment") (jstr ("Flexible seating arrangements supporting both individual work and collaborative learning"))]),
    kv ("technology") (.arr
     [.obj [kv ("tool") (jf [("Interactive ").data, subject, (" simulations").data]),
            kv ("purpose") (jf [("Visualize ").data, topic, (" concepts and principles").data]),
            kv ("alternatives") (.arr
              [jstr ("Physical demonstrations"), jstr ("Static diagrams")])],
      .obj [kv ("tool") (jstr ("Digital data collection tools")),
            kv ("purpose") (jstr ("Accurate measurement and data recording")),
            kv ("alternatives") (.arr
              [jstr ("Traditional measurement tools"), jstr ("Paper data sheets")])],
      .obj [kv ("tool") (jstr ("Collaborative platforms")),
            kv ("purpose") (jstr ("Share findings and collaborate on solutions")),
            kv ("alternatives") (.arr
              [jstr ("Physical charts"), jstr ("Verbal presentations")])]]),
    kv ("safety") (.obj
     [kv ("considerations") (.arr
       [jstr ("Review laboratory safety rules before hands-on activities"),
        jstr ("Ensure proper use of equipment and materials"),
        jstr ("Maintain clear pathways and organized workspace")]),
      kv ("equipment") (.arr
       [jstr ("Safety goggles"), jstr ("Lab aprons"), jstr ("First aid kit")]),
      kv ("procedures") (.arr
       [jstr ("Demonstrate proper equipment use before student handling"),
        jstr ("Monitor student activities continuously"),
        jstr ("Have emergency procedures clearly posted")])]),
    kv ("standards") (.arr
     [.obj [kv ("framework") (jstr ("NCERT")),
            kv ("code") (jf [("Class ").data, grade, (" ").data, subject]),
            kv ("description") (jf [("National curriculum standards for ").data, topic, (" understanding").data])]]),
    kv ("difficulty") (jstr ("intermediate")),
    kv ("language") (jstr ("en")),
    kv ("tags") (.arr
     [.str (lowerStr subject), .str (lowerStr topic),
      jf [("grade-").data, grade], jstr ("5e-model"), jstr ("comprehensive")]),
    kv ("metadata") (.obj
     [kv ("aiGenerated") (.bool true),
      kv ("model") (jstr ("superior-educational-fallback")),
      kv ("generationTime") (.int d),
      kv ("version") (jstr ("2.0")),
      kv ("totalActivities") (.int 5),
      kv ("estimatedPreparationTime") (.int 45)])])]

/-- `_generate_lecture_fallback_superior`: `int(duration)` raises on a
non-numeric string, modelled by `Option`. -/
def generate_lecture_fallback_superior (subject topic grade duration : Str)
    (_objectives : List Str) : Option Str :=
  (strToInt duration).map (fun d => EJson.dumps (lecture_plan_doc subject topic grade d))

/-- `_generate_superior_lecture_fallback` (fixed demo arguments). -/
def generate_superior_lecture_fallback : Option Str :=
  generate_lecture_fallback_superior (("Physics").data)
    (("Motion and Force").data) (("11").data) (("60").data)
    [("Understand motion concepts").data]

/-! ## Fallback synthesizer (`_generate_superior_fallback_response`) -/

/-- First user-role message content, defaulting to `""` (the Python loop with
`msg.get("content", "")`). -/
def first_user_content : List Message → Str
  | [] => []
  | m :: rest =>
    if m.role = ("user").data then m.content else first_user_content rest

/-- `educational_features` literal of the fallback result. -/
def educational_features_list : List Str :=
  [("NCERT alignment").data, ("Pedagogical design").data,
   ("Comprehensive assessment").data, ("Accessibility features").data,
   ("Technology integration").data]

/-- A generation result dict.  `educational_features` is present only on the
synthesized fallback result, absent (`none`) on an accepted backend result. -/
structure GenResult where
  success : Bool
  content : Str
  usage : EJson
  model : Str
  quality_score : ℚ
  educational_features : Option (List Str)

/-- `_generate_superior_fallback_response`.  `none` models an uncaught Python
exception (only reachable through `int(duration)` in the lecture branch, where
the argument is in fact the literal `"60"`). -/
def generate_superior_fallback_response (messages : List Message) :
    Option GenResult :=
  let user_message := first_user_content messages
  let content_type := detect_content_type user_message
  let contentOpt : Option Str :=
    if content_type = ("quiz").data then some generate_superior_quiz_fallback
    else if content_type = ("curriculum").data then
      some generate_superior_curriculum_fallback
    else if content_type = ("mindmap").data then
      some generate_superior_mindmap_fallback
    else if content_type = ("slides").data then
      some generate_superior_slides_fallback
    else if content_type = ("lecture").data then
      generate_superior_lecture_fallback
    else if content_type = ("assessment").data then
      some generate_superior_assessment_fallback
    else some (generate_superior_general_fallback user_message)
  contentOpt.map (fun content =>
    { success := true
      content := content
      usage := .obj [kv ("total_tokens") (.int 2000)]
      model := ("superior-educational-fallback").data
      quality_score := 95/100
      educational_features := some educational_features_list })

/-! ## Dispatcher (`_request_with_fallback`)

Wall time is `ℚ`.  The state carries `self.last_request_time` and the current
clock.  Each candidate dispatch consults the environment `env : ℕ →
AttemptBehavior` for the observable behaviour of `_make_enhanced_request`:
how long the call takes and either the extracted
`choices[0].message.content` string or `none` (transport error, non-200,
timeout, missing/malformed `choices`, or any other exception absorbed by the
`except` clause of the loop). -/

structure RLState where
  last_request_time : ℚ
  now : ℚ

structure AttemptBehavior where
  duration : ℚ
  response : Option Str
  usage : EJson

/-- The inline rate limiter of `_request_with_fallback`: sleep until
`min_delay` has elapsed since `self.last_request_time`. -/
def rate_limit_wait (d : ℚ) (s : RLState) : RLState :=
  let time_since_last := s.now - s.last_request_time
  if time_since_last < d then { s with now := s.now + (d - time_since_last) }
  else s

/-- The candidate loop of `_request_with_fallback`.  Returns the result, the
final state, and the list of dispatch timestamps (the clock value at each
`_make_enhanced_request` call).  `self.last_request_time` is re-recorded only
when a response validates; a failing or rejected attempt leaves it unchanged.
The `if model is None: continue` guard of the source is vacuous here since
candidates are strings. -/
def run_cascade (d : ℚ) (env : ℕ → AttemptBehavior) (messages : List Message) :
    List Str → ℕ → RLState → Option GenResult × RLState × List ℚ
  | [], _, s => (generate_superior_fallback_response messages, s, [])
  | model :: rest, i, s =>
    let s1 := rate_limit_wait d s
    let t := s1.now
    let b := env i
    let s2 : RLState := { s1 with now := s1.now + b.duration }
    match b.response with
    | none =>
      let r := run_cascade d env messages rest (i + 1) s2
      (r.1, r.2.1, t :: r.2.2)
    | some content =>
      if validate_educational_response content messages then
        (some { success := true
                content := content
                usage := b.usage
                model := model
                quality_score := calculate_quality_score content
                educational_features := none },
         { s2 with last_request_time := s2.now }, [t])
      else
        let r := run_cascade d env messages rest (i + 1) s2
        (r.1, r.2.1, t :: r.2.2)

/-- Candidate list construction in `_request_with_fallback`.  Python
`if model_override:` is false both for `None` and for the empty string. -/
def build_candidates (model_override : Option Str) : List Str :=
  match model_override with
  | some m => if m.isEmpty then premium_models.take 2 ++ free_models else [m]
  | none => premium_models.take 2 ++ free_models

/-- `_request_with_fallback` (the `temperature`/`max_tokens` arguments only
flow into the network payload, which the environment abstracts). -/
def request_with_fallback (env : ℕ → AttemptBehavior) (messages : List Message)
    (model_override : Option Str) (s : RLState) :
    Option GenResult × RLState × List ℚ :=
  run_cascade min_delay env messages (build_candidates model_override) 0 s

/-- Projection: the `success` field of an optional result. -/
def success_of (o : Option GenResult) : Option Bool :=
  o.map GenResult.success

/-- Projection: the `model` field of an optional result. -/
def model_of (o : Option GenResult) : Option Str :=
  o.map GenResult.model

/-- Projection: the `content` field of an optional result. -/
def content_of (o : Option GenResult) : Option Str :=
  o.map GenResult.content

/-! ## Auxiliary definitions for the statements -/

/-- The priority-ordered keyword table, written from the spec's tie-break rule
(`quiz > curriculum > mindmap > slide_deck > lecture_plan > assessment >
general`, with the source's names for the domains). -/
def domain_priority : List (List Str × Str) :=
  [(quiz_keywords, ("quiz").data),
   (curriculum_keywords, ("curriculum").data),
   (mindmap_keywords, ("mindmap").data),
   (slides_keywords, ("slides").data),
   (lecture_keywords, ("lecture").data),
   (assessment_keywords, ("assessment").data)]

/-- Written from the spec's words: the first keyword set matching the text
wins; `general` when none matches.  Compared against `detect_content_type`. -/
def first_matching_domain (m : Str) : List (List Str × Str) → Str
  | [] => ("general").data
  | (kws, name) :: rest =>
    if matchesAny kws (lowerStr m) then name else first_matching_domain m rest

/-- Extract the `quiz.questions` array of a document. -/
def quiz_questions_of (doc : EJson) : Option EJson :=
  match doc.lookup (("quiz").data) with
  | some q => q.lookup (("questions").data)
  | none => none

/-- An environment in which every dispatch is a transport failure. -/
def env_fail : ℕ → AttemptBehavior := fun _ => ⟨0, none, .obj []⟩

/-- A backend content string that passes the validator (length ≥ 50 after
stripping, and it contains the indicators `learning`, `objective`, `student`,
`example`). -/
def accept_content : Str :=
  ("This lesson helps each student reach every learning objective with one worked example.").data

/-- An environment whose every dispatch immediately returns `accept_content`. -/
def env_accept : ℕ → AttemptBehavior := fun _ => ⟨0, some accept_content, .obj []⟩

/-- A plain request. -/
def msgs_hello : List Message := [⟨("user").data, ("hello").data⟩]

/-- A quiz request. -/
def msgs_quiz : List Message :=
  [⟨("user").data, ("Create a quiz on motion").data⟩]

/-- 60 characters, 2 quality indicators, but only 18 characters after
stripping. -/
def cex_padded : Str := ("learning objective").data ++ List.replicate 42 ' '

/-- 60 characters containing the quality indicators `activity`, `student`,
`learning`, `objective`. -/
def valid60 : Str :=
  ("This activity gives each student a clear learning objective.").data

/-! ## Helper lemmas -/

theorem dumps_obj_ne_nil (l : List (Str × EJson)) : EJson.dumps (.obj l) ≠ [] := by
  simp [EJson.dumps]

theorem quiz_fallback_content_ne_nil (subject topic grade : Str)
    (question_count : Int) (difficulty : Str) :
    generate_quiz_fallback_superior subject topic grade question_count difficulty ≠ [] := by
  unfold generate_quiz_fallback_superior quiz_fallback_superior_doc
  exact dumps_obj_ne_nil _

theorem curriculum_fallback_content_ne_nil :
    generate_superior_curriculum_fallback ≠ [] := by
  unfold generate_superior_curriculum_fallback generate_curriculum_fallback_superior
    curriculum_fallback_superior_doc
  exact dumps_obj_ne_nil _

theorem mindmap_fallback_content_ne_nil :
    generate_superior_mindmap_fallback ≠ [] := by
  unfold generate_superior_mindmap_fallback generate_mindmap_fallback_superior
    mindmap_fallback_superior_doc
  exact dumps_obj_ne_nil _

theorem slides_fallback_content_ne_nil :
    generate_superior_slides_fallback ≠ [] := by
  unfold generate_superior_slides_fallback generate_slides_fallback_superior
    slides_fallback_superior_doc
  exact dumps_obj_ne_nil _

theorem general_fallback_content_ne_nil (message : Str) :
    generate_superior_general_fallback message ≠ [] := by
  unfold generate_superior_general_fallback
  exact dumps_obj_ne_nil _

theorem lecture_fallback_eq :
    generate_superior_lecture_fallback =
      some (EJson.dumps (lecture_plan_doc (("Physics").data)
        (("Motion and Force").data) (("11").data) 60)) := by
  unfold generate_superior_lecture_fallback generate_lecture_fallback_superior
  have h : strToInt (("60").data) = some 60 := by decide
  rw [h]
  rfl

theorem lecture_fallback_content_ne_nil (subject topic grade : Str) (d : Int) :
    EJson.dumps (lecture_plan_doc subject topic grade d) ≠ [] := by
  unfold lecture_plan_doc
  exact dumps_obj_ne_nil _

theorem fallback_spec (messages : List Message) :
    ∃ r, generate_superior_fallback_response messages = some r ∧
      r.success = true ∧
      r.model = ("superior-educational-fallback").data ∧
      r.quality_score = 95/100 ∧
      r.content ≠ [] ∧
      (first_user_content messages = [] →
        r.content = generate_superior_general_fallback []) := by
  unfold generate_superior_fallback_response
  dsimp only
  split_ifs with h1 h2 h3 h4 h5 h6
  · exact ⟨_, rfl, rfl, rfl, rfl,
      quiz_fallback_content_ne_nil _ _ _ _ _,
      fun hum => absurd (hum ▸ h1) (by decide)⟩
  · exact ⟨_, rfl, rfl, rfl, rfl, curriculum_fallback_content_ne_nil,
      fun hum => absurd (hum ▸ h2) (by decide)⟩
  · exact ⟨_, rfl, rfl, rfl, rfl, mindmap_fallback_content_ne_nil,
      fun hum => absurd (hum ▸ h3) (by decide)⟩
  · exact ⟨_, rfl, rfl, rfl, rfl, slides_fallback_content_ne_nil,
      fun hum => absurd (hum ▸ h4) (by decide)⟩
  · rw [lecture_fallback_eq]
    exact ⟨_, rfl, rfl, rfl, rfl, lecture_fallback_content_ne_nil _ _ _ _,
      fun hum => absurd (hum ▸ h5) (by decide)⟩
  · exact ⟨_, rfl, rfl, rfl, rfl,
      quiz_fallback_content_ne_nil _ _ _ _ _,
      fun hum => absurd (hum ▸ h6) (by decide)⟩
  · exact ⟨_, rfl, rfl, rfl, rfl, general_fallback_content_ne_nil _,
      fun hum => by rw [hum]⟩

theorem run_cascade_success (d : ℚ) (env : ℕ → AttemptBehavior)
    (messages : List Message) :
    ∀ (models : List Str) (i : ℕ) (s : RLState),
      success_of (run_cascade d env messages models i s).1 = some true := by
  intro models
  induction models with
  | nil =>
    intro i s
    obtain ⟨r, hr, hs, _⟩ := fallback_spec messages
    simp [run_cascade, success_of, hr, hs]
  | cons m rest ih =>
    intro i s
    simp only [run_cascade]
    cases hres : (env i).response with
    | none => simpa using ih (i + 1) _
    | some c =>
      by_cases hv : validate_educational_response c messages
      · simp [hres, hv, success_of]
      · simpa [hres, hv] using ih (i + 1) _

theorem run_cascade_all_fail (d : ℚ) (env : ℕ → AttemptBehavior)
    (messages : List Message) (hfail : ∀ j, (env j).response = none) :
    ∀ (models : List Str) (i : ℕ) (s : RLState),
      (run_cascade d env messages models i s).1 =
        generate_superior_fallback_response messages := by
  intro models
  induction models with
  | nil => intro i s; rfl
  | cons m rest ih =>
    intro i s
    simp only [run_cascade, hfail i]
    exact ih (i + 1) _

theorem rate_limit_wait_now_ge (d : ℚ) (s : RLState) :
    s.last_request_time + d ≤ (rate_limit_wait d s).now := by
  unfold rate_limit_wait
  dsimp only
  split_ifs with h
  · show s.last_request_time + d ≤ s.now + (d - (s.now - s.last_request_time))
    linarith
  · show s.last_request_time + d ≤ s.now
    linarith

theorem rate_limit_wait_last (d : ℚ) (s : RLState) :
    (rate_limit_wait d s).last_request_time = s.last_request_time := by
  unfold rate_limit_wait
  dsimp only
  split_ifs with h <;> rfl

theorem run_cascade_dispatch_ge (d : ℚ) (env : ℕ → AttemptBehavior)
    (messages : List Message) :
    ∀ (models : List Str) (i : ℕ) (s : RLState),
      ∀ t ∈ (run_cascade d env messages models i s).2.2,
        s.last_request_time + d ≤ t := by
  intro models
  induction models with
  | nil => intro i s t ht; simp [run_cascade] at ht
  | cons m rest ih =>
    intro i s t ht
    simp only [run_cascade] at ht
    cases hres : (env i).response with
    | none =>
      simp only [hres, List.mem_cons] at ht
      rcases ht with rfl | ht
      · exact rate_limit_wait_now_ge d s
      · have h2 := ih (i + 1)
          { rate_limit_wait d s with
            now := (rate_limit_wait d s).now + (env i).duration } t ht
        rwa [rate_limit_wait_last] at h2
    | some c =>
      simp only [hres] at ht
      cases hval : validate_educational_response c messages with
      | true =>
        simp only [hval, if_true, List.mem_singleton] at ht
        subst ht
        exact rate_limit_wait_now_ge d s
      | false =>
        simp only [hval, Bool.false_eq_true, if_false, List.mem_cons] at ht
        rcases ht with rfl | ht
        · exact rate_limit_wait_now_ge d s
        · have h2 := ih (i + 1)
            { rate_limit_wait d s with
              now := (rate_limit_wait d s).now + (env i).duration } t ht
          rwa [rate_limit_wait_last] at h2

theorem run_cascade_last_record (d : ℚ) (env : ℕ → AttemptBehavior)
    (messages : List Message) (hdur : ∀ j, 0 ≤ (env j).duration) :
    ∀ (models : List Str) (i : ℕ) (s : RLState),
      (run_cascade d env messages models i s).2.1.last_request_time =
          s.last_request_time ∨
        ∃ t ∈ (run_cascade d env messages models i s).2.2,
          t ≤ (run_cascade d env messages models i s).2.1.last_request_time := by
  intro models
  induction models with
  | nil => intro i s; left; rfl
  | cons m rest ih =>
    intro i s
    simp only [run_cascade]
    cases hres : (env i).response with
    | none =>
      simp only
      rcases ih (i + 1)
          { rate_limit_wait d s with
            now := (rate_limit_wait d s).now + (env i).duration } with h | ⟨t, ht, hle⟩
      · left
        rw [h, rate_limit_wait_last]
      · right
        exact ⟨t, List.mem_cons_of_mem _ ht, hle⟩
    | some c =>
      cases hval : validate_educational_response c messages with
      | true =>
        simp only [hval, if_true]
        right
        refine ⟨(rate_limit_wait d s).now, List.mem_singleton_self _, ?_⟩
        have := hdur i
        show (rate_limit_wait d s).now ≤ (rate_limit_wait d s).now + (env i).duration
        linarith
      | false =>
        simp only [hval, Bool.false_eq_true, if_false]
        rcases ih (i + 1)
            { rate_limit_wait d s with
              now := (rate_limit_wait d s).now + (env i).duration } with h | ⟨t, ht, hle⟩
        · left
          rw [h, rate_limit_wait_last]
        · right
          exact ⟨t, List.mem_cons_of_mem _ ht, hle⟩

theorem le_foldl_term_bonus (g : Str → Bool) (l : List Str) (sc : ℚ) :
    sc ≤ l.foldl (fun a term => if g term then a + 5/100 else a) sc := by
  induction l generalizing sc with
  | nil => exact le_refl sc
  | cons x xs ih =>
    simp only [List.foldl_cons]
    split_ifs with h
    · calc sc ≤ sc + 5/100 := by linarith
        _ ≤ _ := ih (sc + 5/100)
    · exact ih sc

/-! ## Claims -/

/-- C1.  For every environment (arbitrary transport failures, arbitrary
returned contents), every message list, every override and every limiter
state, `_request_with_fallback` returns a result whose `success` field is
`true`: either a validated response is accepted in the loop, or the fallback
synthesizer's always-successful result is returned; no other terminal outcome
exists. -/
theorem request_with_fallback_always_success (env : ℕ → AttemptBehavior)
    (messages : List Message) (model_override : Option Str) (s : RLState) :
    success_of (request_with_fallback env messages model_override s).1 =
      some true :=
  run_cascade_success min_delay env messages
    (build_candidates model_override) 0 s

/-- C4.  The candidate list is the singleton `[override]` whenever a
(non-empty, hence truthy) override is supplied — the construction does not
consult the domain at all — and otherwise it is the first two premium-tier
identifiers followed by all free-tier identifiers; the construction is a pure
function of the override, so fixed inputs yield the identical list. -/
theorem build_candidates_spec (m : Str) (hm : m ≠ []) :
    build_candidates (some m) = [m] ∧
    build_candidates none = premium_models.take 2 ++ free_models := by
  constructor
  · simp [build_candidates, List.isEmpty_iff, hm]
  · rfl

/-- Witness for C4 (Scenario D's override). -/
theorem build_candidates_spec_witness :
    build_candidates (some (("custom-model-x").data)) =
        [("custom-model-x").data] ∧
    build_candidates none = premium_models.take 2 ++ free_models :=
  build_candidates_spec (("custom-model-x").data) (by decide)

/-- C5.  `_detect_content_type` equals the first-match-wins scan of the
priority table `quiz > curriculum > mindmap > slides > lecture > assessment >
general`; in particular a prompt matching both the quiz and the curriculum
keyword sets classifies as quiz. -/
theorem detect_content_type_priority (m : Str) :
    detect_content_type m = first_matching_domain m domain_priority ∧
    (matchesAny quiz_keywords (lowerStr m) = true →
      matchesAny curriculum_keywords (lowerStr m) = true →
      detect_content_type m = ("quiz").data) := by
  constructor
  · rfl
  · intro hq _
    simp [detect_content_type, hq]

/-- Witness for C5 (a prompt with both quiz and curriculum keywords). -/
theorem detect_content_type_priority_witness :
    detect_content_type (("Make a quiz for this curriculum").data) =
      ("quiz").data :=
  (detect_content_type_priority _).2 (by decide) (by decide)

/-- C10.  Because the quiz keyword set (checked first) contains `"test"` and
`"assessment"`, any message containing either substring (case-insensitively)
classifies as quiz; consequently the assessment domain is returned exactly for
messages containing `"exam"`, `"evaluation"` or `"grading"` while matching
none of the quiz, curriculum, mindmap, slides or lecture keyword sets. -/
theorem quiz_keyword_shadowing (m : Str) :
    (pyIn (("test").data) (lowerStr m) = true →
      detect_content_type m = ("quiz").data) ∧
    (pyIn (("assessment").data) (lowerStr m) = true →
      detect_content_type m = ("quiz").data) ∧
    (detect_content_type m = ("assessment").data ↔
      ((pyIn (("exam").data) (lowerStr m) = true ∨
        pyIn (("evaluation").data) (lowerStr m) = true ∨
        pyIn (("grading").data) (lowerStr m) = true) ∧
       matchesAny quiz_keywords (lowerStr m) = false ∧
       matchesAny curriculum_keywords (lowerStr m) = false ∧
       matchesAny mindmap_keywords (lowerStr m) = false ∧
       matchesAny slides_keywords (lowerStr m) = false ∧
       matchesAny lecture_keywords (lowerStr m) = false)) := by
  have hquiz_of_test : pyIn (("test").data) (lowerStr m) = true →
      matchesAny quiz_keywords (lowerStr m) = true := by
    intro h
    simp [matchesAny, quiz_keywords, List.any_cons, h]
  have hquiz_of_assessment : pyIn (("assessment").data) (lowerStr m) = true →
      matchesAny quiz_keywords (lowerStr m) = true := by
    intro h
    simp [matchesAny, quiz_keywords, List.any_cons, h]
  refine ⟨fun h => ?_, fun h => ?_, ?_⟩
  · simp [detect_content_type, hquiz_of_test h]
  · simp [detect_content_type, hquiz_of_assessment h]
  constructor
  · intro hd
    by_cases h1 : matchesAny quiz_keywords (lowerStr m) = true
    · rw [detect_content_type, if_pos h1] at hd
      exact absurd hd (by decide)
    by_cases h2 : matchesAny curriculum_keywords (lowerStr m) = true
    · rw [detect_content_type, if_neg h1, if_pos h2] at hd
      exact absurd hd (by decide)
    by_cases h3 : matchesAny mindmap_keywords (lowerStr m) = true
    · rw [detect_content_type, if_neg h1, if_neg h2, if_pos h3] at hd
      exact absurd hd (by decide)
    by_cases h4 : matchesAny slides_keywords (lowerStr m) = true
    · rw [detect_content_type, if_neg h1, if_neg h2, if_neg h3, if_pos h4] at hd
      exact absurd hd (by decide)
    by_cases h5 : matchesAny lecture_keywords (lowerStr m) = true
    · rw [detect_content_type, if_neg h1, if_neg h2, if_neg h3, if_neg h4,
        if_pos h5] at hd
      exact absurd hd (by decide)
    by_cases h6 : matchesAny assessment_keywords (lowerStr m) = true
    · have h6' := h6
      simp only [matchesAny, assessment_keywords, List.any_cons, List.any_nil,
        Bool.or_eq_true, Bool.or_eq_false_iff] at h6'
      have hassess : pyIn (("assessment").data) (lowerStr m) = false := by
        by_contra hc
        simp only [Bool.not_eq_false] at hc
        exact h1 (hquiz_of_assessment hc)
      simp only [Bool.not_eq_true] at h1 h2 h3 h4 h5
      refine ⟨?_, h1, h2, h3, h4, h5⟩
      rcases h6' with ha | he | hev | ⟨hg | hfalse⟩
      · rw [hassess] at ha
        cases ha
      · exact Or.inl he
      · exact Or.inr (Or.inl hev)
      · exact Or.inr (Or.inr hg)
      · cases hfalse
    · rw [detect_content_type, if_neg h1, if_neg h2, if_neg h3, if_neg h4,
        if_neg h5, if_neg h6] at hd
      exact absurd hd (by decide)
  · rintro ⟨hdisj, hq, hc, hm', hs, hl⟩
    have hassess : matchesAny assessment_keywords (lowerStr m) = true := by
      simp only [matchesAny, assessment_keywords, List.any_cons, List.any_nil,
        Bool.or_eq_true]
      rcases hdisj with he | hev | hg
      · exact Or.inr (Or.inl he)
      · exact Or.inr (Or.inr (Or.inl hev))
      · exact Or.inr (Or.inr (Or.inr (Or.inl hg)))
    rw [detect_content_type]
    simp [hq, hc, hm', hs, hl, hassess]

/-- Witness for C10: `"latest news"` contains `"test"` as a substring and so
classifies as quiz; `"grading rubric needed"` reaches the assessment branch. -/
theorem quiz_keyword_shadowing_witness :
    detect_content_type (("latest news").data) = ("quiz").data ∧
    detect_content_type (("grading rubric needed").data) =
      ("assessment").data := by
  constructor
  · exact (quiz_keyword_shadowing _).1 (by decide)
  · exact (quiz_keyword_shadowing _).2.2.mpr
      ⟨Or.inr (Or.inr (by decide)), by decide, by decide, by decide,
       by decide, by decide⟩

/-- C6 counterexample.  `cex_padded` is 60 characters long (≥ 50) and contains
2 quality indicators, yet the validator rejects it, because the length gate is
applied to the whitespace-stripped content (18 characters here): "passes all
other content" fails for length measured on the raw string. -/
theorem validator_strip_counterexample :
    50 ≤ cex_padded.length ∧ 2 ≤ count_quality_indicators cex_padded ∧
    validate_educational_response cex_padded [] = false := by decide

/-- C6 amended.  The validator passes exactly the strings whose
whitespace-stripped length is at least 50 and which contain at least 2 of the
fixed quality indicators; in particular the empty string fails and any
unpadded 60-character string with 3 indicators passes. -/
theorem validator_gate_amended (content : Str) (messages : List Message) :
    validate_educational_response content messages = true ↔
      (50 ≤ (stripStr content).length ∧
        2 ≤ count_quality_indicators content) := by
  unfold validate_educational_response
  split_ifs with h
  · simp only [Bool.false_eq_true, false_iff, not_and, not_le]
    intro hlen
    rcases h with h | h
    · rw [List.isEmpty_iff] at h
      subst h
      simp [stripStr] at hlen
    · omega
  · push_neg at h
    simp only [decide_eq_true_eq]
    constructor
    · intro hcount
      exact ⟨h.2, hcount⟩
    · intro hand
      exact hand.2

/-- Witness for C6 (Scenario C): the empty string fails; `valid60` is 60
characters with 3+ indicators and no padding, and passes. -/
theorem validator_gate_amended_witness :
    validate_educational_response valid60 [] = true ∧ valid60.length = 60 ∧
    validate_educational_response [] [] = false := by
  refine ⟨?_, by decide, by decide⟩
  exact (validator_gate_amended valid60 []).mpr (by decide)

/-- C7.  The quality score lies in `[0, 1]` for every input (the empty string
included): base 0.5, plus a length bonus (0.2 over 1000 characters, else 0.1
over 500), plus 0.05 per distinct educational term present, plus 0.1 for
structure markers, finally capped at 1.0 — every addend is nonnegative, so the
capped value stays between 0 and 1. -/
theorem quality_score_bounds (content : Str) :
    0 ≤ calculate_quality_score content ∧
    calculate_quality_score content ≤ 1 := by
  unfold calculate_quality_score
  dsimp only
  have hfold : ∀ sc : ℚ, 0 ≤ sc →
      (0:ℚ) ≤ List.foldl
        (fun a term => if pyIn term (lowerStr content) then a + 5/100 else a)
        sc educational_terms :=
    fun sc hsc => le_trans hsc (le_foldl_term_bonus _ _ sc)
  constructor
  · apply le_min _ (by norm_num)
    split_ifs <;>
      first
        | (have h := hfold (1/2 + 2/10) (by norm_num); linarith)
        | (have h := hfold (1/2 + 1/10) (by norm_num); linarith)
        | (have h := hfold (1/2) (by norm_num); linarith)
  · exact min_le_right _ _

/-- C8 counterexample.  The enhancer returns the empty list unchanged — no
system message is inserted at position 0 — and when the first system message
sits at a later position it is not merged: a fresh system message is prepended
and the original system message is left as-is. -/
theorem enhance_messages_counterexample :
    enhance_messages_with_context [] = [] ∧
    enhance_messages_with_context
        [⟨("user").data, ("hi").data⟩, ⟨("system").data, ("keep me").data⟩] =
      [⟨("system").data, educational_context⟩, ⟨("user").data, ("hi").data⟩,
       ⟨("system").data, ("keep me").data⟩] := by
  exact ⟨rfl, rfl⟩

/-- C8 amended.  The enhancer is a pure function on the message list: the
empty list is returned unchanged; when the first message (position 0) has role
`system` it is merged with the fixed preamble and every other message is
preserved in order; otherwise — even if a system message occurs later — a new
system message is inserted at position 0 and all original messages follow
unchanged. -/
theorem enhance_messages_amended (messages : List Message) :
    (messages = [] → enhance_messages_with_context messages = []) ∧
    (∀ m0 rest, messages = m0 :: rest → m0.role = ("system").data →
      enhance_messages_with_context messages =
        { role := ("system").data,
          content :=
            m0.content ++ ("\n\n").data ++ educational_context } :: rest) ∧
    (∀ m0 rest, messages = m0 :: rest → m0.role ≠ ("system").data →
      enhance_messages_with_context messages =
        { role := ("system").data, content := educational_context }
          :: m0 :: rest) := by
  refine ⟨fun h => by rw [h]; rfl, ?_, ?_⟩
  · rintro m0 rest rfl hrole
    simp [enhance_messages_with_context, hrole]
  · rintro m0 rest rfl hrole
    simp [enhance_messages_with_context, hrole]

/-- Witness for C8: one merge case, one insert case. -/
theorem enhance_messages_amended_witness :
    enhance_messages_with_context [⟨("system").data, ("x").data⟩] =
      [⟨("system").data,
        ("x").data ++ ("\n\n").data ++ educational_context⟩] ∧
    enhance_messages_with_context [⟨("user").data, ("y").data⟩] =
      [⟨("system").data, educational_context⟩,
       ⟨("user").data, ("y").data⟩] := by
  constructor
  · exact (enhance_messages_amended _).2.1 _ _ rfl rfl
  · exact (enhance_messages_amended _).2.2 _ _ rfl (by decide)

theorem quiz_all_fail_spec (env : ℕ → AttemptBehavior)
    (messages : List Message) (models : List Str) (i : ℕ) (s : RLState)
    (hfail : ∀ j, (env j).response = none)
    (hquiz : pyIn (("quiz").data)
      (lowerStr (first_user_content messages)) = true) :
    ∃ r, (run_cascade min_delay env messages models i s).1 = some r ∧
      r.success = true ∧
      r.model = ("superior-educational-fallback").data ∧
      r.content = generate_quiz_fallback_superior (("Physics").data)
        (("Motion and Force").data) (("11").data) 5 (("medium").data) ∧
      quiz_questions_of (quiz_fallback_superior_doc (("Physics").data)
          (("Motion and Force").data) (("11").data) 5 (("medium").data)) =
        some (.arr quiz_fallback_questions) ∧
      quiz_fallback_questions.length = 2 := by
  rw [run_cascade_all_fail min_delay env messages hfail models i s]
  have hmatch : matchesAny quiz_keywords
      (lowerStr (first_user_content messages)) = true := by
    simp [matchesAny, quiz_keywords, List.any_cons, hquiz]
  have hdet : detect_content_type (first_user_content messages) =
      ("quiz").data := by
    rw [detect_content_type, if_pos hmatch]
  unfold generate_superior_fallback_response
  dsimp only
  rw [if_pos hdet]
  exact ⟨_, rfl, rfl, rfl, rfl, rfl, rfl⟩

/-- C3 counterexample.  With every candidate failing on a quiz prompt the
dispatcher does return `success = true` and a fallback result, but its model
tag is the exact string `"superior-educational-fallback"` — not `"fallback"`
as claimed (no result in this code path ever carries the tag `"fallback"`). -/
theorem fallback_model_tag_counterexample :
    success_of (request_with_fallback env_fail msgs_quiz none ⟨0, 10⟩).1 =
        some true ∧
    model_of (request_with_fallback env_fail msgs_quiz none ⟨0, 10⟩).1 =
        some (("superior-educational-fallback").data) ∧
    model_of (request_with_fallback env_fail msgs_quiz none ⟨0, 10⟩).1 ≠
        some (("fallback").data) := by
  obtain ⟨r, hr, hs, hm, -, -, -⟩ := quiz_all_fail_spec env_fail msgs_quiz
    (build_candidates none) 0 ⟨0, 10⟩ (fun j => rfl) (by decide)
  refine ⟨?_, ?_, ?_⟩
  · simp [success_of, request_with_fallback, hr, hs]
  · simp [model_of, request_with_fallback, hr, hm]
  · simp [model_of, request_with_fallback, hr, hm]

/-- C3 amended.  When every candidate attempt fails for a quiz prompt, the
returned result has `success = true`, a `model` field equal to the exact
string `"superior-educational-fallback"` (the repository's only fallback tag;
the spec's `"fallback"` value does not occur), and a content string that is
the serialization of the quiz fallback document, whose `quiz.questions` array
is non-empty (it holds exactly 2 questions). -/
theorem quiz_fallback_amended (env : ℕ → AttemptBehavior)
    (messages : List Message) (models : List Str) (i : ℕ) (s : RLState)
    (hfail : ∀ j, (env j).response = none)
    (hquiz : pyIn (("quiz").data)
      (lowerStr (first_user_content messages)) = true) :
    ∃ r, (run_cascade min_delay env messages models i s).1 = some r ∧
      r.success = true ∧
      r.model = ("superior-educational-fallback").data ∧
      r.content = generate_quiz_fallback_superior (("Physics").data)
        (("Motion and Force").data) (("11").data) 5 (("medium").data) ∧
      quiz_questions_of (quiz_fallback_superior_doc (("Physics").data)
          (("Motion and Force").data) (("11").data) 5 (("medium").data)) =
        some (.arr quiz_fallback_questions) ∧
      quiz_fallback_questions.length = 2 :=
  quiz_all_fail_spec env messages models i s hfail hquiz

/-- Witness for C3 (Scenario A at a concrete quiz request and the concrete
all-failures environment). -/
theorem quiz_fallback_amended_witness :
    content_of (request_with_fallback env_fail msgs_quiz none ⟨0, 10⟩).1 =
      some (generate_quiz_fallback_superior (("Physics").data)
        (("Motion and Force").data) (("11").data) 5 (("medium").data)) ∧
    quiz_questions_of (quiz_fallback_superior_doc (("Physics").data)
        (("Motion and Force").data) (("11").data) 5 (("medium").data)) =
      some (.arr quiz_fallback_questions) ∧
    quiz_fallback_questions.length = 2 := by
  obtain ⟨r, hr, -, -, hc, hq, hl⟩ := quiz_fallback_amended env_fail msgs_quiz
    (build_candidates none) 0 ⟨0, 10⟩ (fun j => rfl) (by decide)
  exact ⟨by simp [content_of, request_with_fallback, hr, hc], hq, hl⟩

/-- C9.  The fallback synthesizer is total: for every message list (the empty
list and lists without a user message included) it returns a complete result
with `success = true`, the fixed model tag, the fixed quality score 0.95 and a
non-empty content string; extraction failure degrades to the default `""`
prompt (general-domain content).  As a pure function of its argument it is
deterministic. -/
theorem fallback_synthesizer_total (messages : List Message) :
    ∃ r, generate_superior_fallback_response messages = some r ∧
      r.success = true ∧
      r.model = ("superior-educational-fallback").data ∧
      r.quality_score = 95/100 ∧
      r.content ≠ [] ∧
      (first_user_content messages = [] →
        r.content = generate_superior_general_fallback []) :=
  fallback_spec messages

/-- Witness for C9 (the empty message list: no user message to extract). -/
theorem fallback_synthesizer_total_witness :
    success_of (generate_superior_fallback_response []) = some true ∧
    content_of (generate_superior_fallback_response []) =
      some (generate_superior_general_fallback []) := by
  obtain ⟨r, hr, hs, -, -, -, himp⟩ := fallback_synthesizer_total []
  have hc := himp rfl
  exact ⟨by simp [success_of, hr, hs], by simp [content_of, hr, hc]⟩

/-- C2 counterexample.  Six sequential dispatches (one call, no override,
every candidate failing, zero request durations, initial state: last recorded
timestamp 0, clock 10) all happen at time 10: consecutive dispatch timestamps
differ by 0 < `min_delay`, and no new timestamp is recorded for any of the six
dispatches (the recorded timestamp is still 0 afterwards) — the timestamp is
recorded only on validated success, not per dispatch. -/
theorem rate_spacing_counterexample :
    (request_with_fallback env_fail msgs_hello none ⟨0, 10⟩).2.2 =
      [10, 10, 10, 10, 10, 10] ∧
    ¬((10 : ℚ) + min_delay ≤ 10) ∧
    (request_with_fallback env_fail msgs_hello none
        ⟨0, 10⟩).2.1.last_request_time = 0 := by
  refine ⟨?_, by norm_num [min_delay], ?_⟩ <;>
    norm_num [request_with_fallback, run_cascade, rate_limit_wait, min_delay,
      env_fail, build_candidates, premium_models, free_models]

/-- C2 amended.  Before each dispatch the limiter blocks until `min_delay` has
elapsed since the previously *recorded* timestamp, and a new timestamp is
recorded only when a dispatch's response is accepted (validated success) — not
for every dispatch.  Consequently (a) every dispatch of a call happens at or
after the call-entry recorded timestamp plus `min_delay`, and (b) whenever a
call records a new timestamp (i.e. accepted some dispatch), every dispatch of
the next sequential call is at least `min_delay` after some dispatch of the
first call — but consecutive failing dispatches carry no spacing guarantee
(see the counterexample). -/
theorem rate_spacing_amended (d : ℚ) (env env2 : ℕ → AttemptBehavior)
    (messages messages2 : List Message) (ov ov2 : Option Str) (s : RLState)
    (hdur : ∀ j, 0 ≤ (env j).duration) :
    (∀ t ∈ (run_cascade d env messages (build_candidates ov) 0 s).2.2,
        s.last_request_time + d ≤ t) ∧
    ((run_cascade d env messages
          (build_candidates ov) 0 s).2.1.last_request_time ≠
        s.last_request_time →
      ∃ t1 ∈ (run_cascade d env messages (build_candidates ov) 0 s).2.2,
        ∀ t2 ∈ (run_cascade d env2 messages2 (build_candidates ov2) 0
            (run_cascade d env messages (build_candidates ov) 0 s).2.1).2.2,
          t1 + d ≤ t2) := by
  constructor
  · exact run_cascade_dispatch_ge d env messages _ 0 s
  · intro hne
    rcases run_cascade_last_record d env messages hdur
        (build_candidates ov) 0 s with h | ⟨t1, ht1, hle⟩
    · exact absurd h hne
    · refine ⟨t1, ht1, fun t2 ht2 => ?_⟩
      have h2 := run_cascade_dispatch_ge d env2 messages2 _ 0 _ t2 ht2
      linarith

/-- Witness for C2: with an immediately-accepting backend, the first call
dispatches at time 10 (≥ 0 + 0.5) and records timestamp 10; the second call
then dispatches at 10.5 = 10 + `min_delay`. -/
theorem rate_spacing_amended_witness :
    ((0 : ℚ) + min_delay ≤ 10) ∧ ((10 : ℚ) + min_delay ≤ 21/2) := by
  have hv : validate_educational_response accept_content msgs_hello = true := by
    decide
  have hdur : ∀ j : ℕ, 0 ≤ (env_accept j).duration := fun j => le_refl 0
  have h := rate_spacing_amended min_delay env_accept env_accept msgs_hello
    msgs_hello none none ⟨0, 10⟩ hdur
  have hT1 : (run_cascade min_delay env_accept msgs_hello
      (build_candidates none) 0 ⟨0, 10⟩).2.2 = [10] := by
    norm_num [run_cascade, rate_limit_wait, min_delay, env_accept,
      build_candidates, premium_models, free_models, hv]
  have hS1 : (run_cascade min_delay env_accept msgs_hello
      (build_candidates none) 0 ⟨0, 10⟩).2.1 = (⟨10, 10⟩ : RLState) := by
    norm_num [run_cascade, rate_limit_wait, min_delay, env_accept,
      build_candidates, premium_models, free_models, hv]
  have hT2 : (run_cascade min_delay env_accept msgs_hello
      (build_candidates none) 0 ⟨10, 10⟩).2.2 = [21/2] := by
    norm_num [run_cascade, rate_limit_wait, min_delay, env_accept,
      build_candidates, premium_models, free_models, hv]
  constructor
  · exact h.1 10 (by rw [hT1]; exact List.mem_singleton_self 10)
  · have hne : (run_cascade min_delay env_accept msgs_hello
        (build_candidates none) 0
          ⟨0, 10⟩).2.1.last_request_time ≠
        (⟨0, 10⟩ : RLState).last_request_time := by
      rw [hS1]
      norm_num
    obtain ⟨t1, ht1, hall⟩ := h.2 hne
    have ht1' : t1 = 10 := by
      rw [hT1] at ht1
      simpa using ht1
    have h2 := hall (21/2) (by rw [hS1, hT2]; exact List.mem_singleton_self _)
    rw [ht1'] at h2
    exact h2
